import Mathlib

/-!
# IoT-Hub: sensor models and the aggregation loop

A shallow embedding of `sensors/*.js` and of `src/server.js`.

Modelling conventions

* JavaScript numbers are exact rationals (`ℚ`); IEEE-754 rounding, `NaN` and the
  infinities are not modelled.
* Every `Math.random()` draw and every clock observation is an explicit argument.
* A method that mutates `this` returns the new object; a method that also returns
  a value returns the pair `(value, new object)`.
* Fields that are assigned once in a constructor and never reassigned (`name`,
  `type`, `unit`, `minValue`, `maxValue`, `minLevel`, `maxLevel`, hardware
  descriptors) are constants of the sensor's namespace, not structure fields.
* `console.log` output is not part of the model.
-/

namespace IoTHub

/-! ## JavaScript values and helpers -/

/-- The JavaScript values that can reach `calibrate` from a request body or a socket
message, and that `generateSensorData` stores in the snapshot and in the history. -/
inductive JSValue where
  | undefined
  | null
  | bool (b : Bool)
  | num (q : ℚ)
  | str (s : String)
  | obj
deriving DecidableEq

/-- JavaScript truthiness (`if (v && ...)`): `undefined`, `null`, `false`, `0` and the
empty string are falsy; everything else is truthy. -/
def JSValue.truthy : JSValue → Bool
  | .undefined => false
  | .null => false
  | .bool b => b
  | .num q => decide (q ≠ 0)
  | .str s => decide (s ≠ "")
  | .obj => true

/-- The test `typeof v === 'number'`. -/
def JSValue.isNumber : JSValue → Bool
  | .num _ => true
  | _ => false

/-- A `value` field (a number or `null`) as a JavaScript value. -/
def JSValue.ofOption : Option ℚ → JSValue
  | some q => .num q
  | none => .null

/-- The function `Math.round`: nearest integer, ties towards positive infinity. -/
def mathRound (x : ℚ) : ℤ := ⌊x + 1 / 2⌋

/-- The expression `Math.round(x * k) / k`. -/
def roundTo (k : ℚ) (x : ℚ) : ℚ := (mathRound (x * k) : ℚ) / k

/-- One observation of the clock during a call: `new Date().toISOString()`,
`Date.now()` (milliseconds) and `new Date().getHours()`. -/
structure Clock where
  iso : String
  now : Int
  hour : Nat
deriving DecidableEq

/-- The `{ level, color }` classification object. -/
structure Level where
  level : String
  color : String
deriving DecidableEq

/-- The object returned by a sensor's `readValue`. A field that a given sensor does not
put in its object is `none`; `value = none` is a `null` value. -/
structure Reading where
  value : Option ℚ
  unit : Option String
  timestamp : String
  sensor : String
  status : String
  location : Option String
  timeOfDay : Option String
  duration : Option Int
  sensitivity : Option ℚ
  accuracy : Option String
  level : Option Level
  co2 : Option ℚ
  voc : Option ℚ
  peak : Option ℚ
  average : Option ℚ
deriving DecidableEq

/-- An object with the five fields shared by the readings and no extra field. -/
def Reading.plain (value : Option ℚ) (unit : Option String) (timestamp sensor status : String) :
    Reading :=
  { value := value, unit := unit, timestamp := timestamp, sensor := sensor, status := status,
    location := none, timeOfDay := none, duration := none, sensitivity := none,
    accuracy := none, level := none, co2 := none, voc := none, peak := none, average := none }

/-! ## sensors/temperature.js -/

structure TemperatureSensor where
  baseTemp : ℚ
  variance : ℚ
  currentValue : ℚ
  isActive : Bool
deriving DecidableEq

namespace TemperatureSensor

def type : String := "temperature"

/-- The unit string as the source file holds it: the three characters `Â`, `°`, `C`. -/
def unit : String := "Â°C"

/-- The constructor `new TemperatureSensor(baseTemp, variance)`. -/
def create (baseTemp variance : ℚ) : TemperatureSensor :=
  { baseTemp := baseTemp, variance := variance, currentValue := baseTemp, isActive := true }

/-- The constructor with its default arguments, `new TemperatureSensor()`. -/
def default : TemperatureSensor := create 25 5

def readValue (s : TemperatureSensor) (c : Clock) (random : ℚ) : Reading × TemperatureSensor :=
  if !s.isActive then
    (Reading.plain none (some unit) c.iso type "inactive", s)
  else
    let change := (random - 1 / 2) * 2
    let currentValue := s.currentValue + change * (1 / 2)
    let currentValue := max (s.baseTemp - s.variance) (min (s.baseTemp + s.variance) currentValue)
    ({ Reading.plain (some (roundTo 10 currentValue)) (some unit) c.iso type "active" with
         location := some "Indoor" },
     { s with currentValue := currentValue })

def toggle (s : TemperatureSensor) : TemperatureSensor :=
  { s with isActive := !s.isActive }

def calibrate (s : TemperatureSensor) (referenceTemp : JSValue) : TemperatureSensor :=
  match referenceTemp with
  | .num q =>
    if (JSValue.num q).truthy && (JSValue.num q).isNumber then
      { s with currentValue := q, baseTemp := q }
    else s
  | _ => s

end TemperatureSensor

/-! ## sensors/humidity.js -/

structure HumiditySensor where
  baseHumidity : ℚ
  variance : ℚ
  currentValue : ℚ
  isActive : Bool
deriving DecidableEq

namespace HumiditySensor

def type : String := "humidity"
def unit : String := "%"

def create (baseHumidity variance : ℚ) : HumiditySensor :=
  { baseHumidity := baseHumidity, variance := variance, currentValue := baseHumidity,
    isActive := true }

def default : HumiditySensor := create 60 20

def readValue (s : HumiditySensor) (c : Clock) (random : ℚ) : Reading × HumiditySensor :=
  if !s.isActive then
    (Reading.plain none (some unit) c.iso type "inactive", s)
  else
    let change := (random - 1 / 2) * 3
    let currentValue := s.currentValue + change * (3 / 10)
    let currentValue := max 0 (min 100 currentValue)
    ({ Reading.plain (some (roundTo 10 currentValue)) (some unit) c.iso type "active" with
         location := some "Indoor" },
     { s with currentValue := currentValue })

def toggle (s : HumiditySensor) : HumiditySensor :=
  { s with isActive := !s.isActive }

def calibrate (s : HumiditySensor) (referenceHumidity : JSValue) : HumiditySensor :=
  match referenceHumidity with
  | .num q =>
    if (JSValue.num q).truthy && (JSValue.num q).isNumber then
      { s with currentValue := max 0 (min 100 q) }
    else s
  | _ => s

end HumiditySensor

/-! ## sensors/light.js -/

structure LightSensor where
  baseLight : ℚ
  variance : ℚ
  currentValue : ℚ
  isActive : Bool
deriving DecidableEq

namespace LightSensor

def type : String := "light"
def unit : String := "lux"

def create (baseLight variance : ℚ) : LightSensor :=
  { baseLight := baseLight, variance := variance, currentValue := baseLight, isActive := true }

def default : LightSensor := create 500 400

/-- The `timeOfDayMultiplier` chosen from the hour. -/
def timeOfDayMultiplier (hour : Nat) : ℚ :=
  if hour < 6 ∨ hour > 20 then 1 / 10
  else if hour < 8 ∨ hour > 18 then 1 / 2
  else 1

/-- The `timeOfDay` label of the reading. -/
def timeOfDay (hour : Nat) : String :=
  if hour < 6 ∨ hour > 20 then "night"
  else if hour < 8 ∨ hour > 18 then "twilight"
  else "day"

def readValue (s : LightSensor) (c : Clock) (random : ℚ) : Reading × LightSensor :=
  if !s.isActive then
    (Reading.plain none (some unit) c.iso type "inactive", s)
  else
    let change := (random - 1 / 2) * 100
    let currentValue := s.currentValue + change * (1 / 5)
    let adjustedReading := currentValue * timeOfDayMultiplier c.hour
    let currentValue := max 0 (min 1000 adjustedReading)
    ({ Reading.plain (some (mathRound currentValue)) (some unit) c.iso type "active" with
         timeOfDay := some (timeOfDay c.hour), location := some "Indoor" },
     { s with currentValue := currentValue })

def toggle (s : LightSensor) : LightSensor :=
  { s with isActive := !s.isActive }

def calibrate (s : LightSensor) (referenceLux : JSValue) : LightSensor :=
  match referenceLux with
  | .num q =>
    if (JSValue.num q).truthy && (JSValue.num q).isNumber && decide (q ≥ 0) then
      { s with currentValue := q }
    else s
  | _ => s

end LightSensor

/-! ## sensors/motion.js -/

structure MotionSensor where
  sensitivity : ℚ
  lastMotion : Bool
  /-- The field `motionStartTime`: `null`, or a `Date` given by its millisecond instant. -/
  motionStartTime : Option Int
  isActive : Bool
deriving DecidableEq

namespace MotionSensor

def type : String := "motion"
def unit : String := "boolean"

def create (sensitivity : ℚ) : MotionSensor :=
  { sensitivity := sensitivity, lastMotion := false, motionStartTime := none, isActive := true }

def default : MotionSensor := create (1 / 10)

def readValue (s : MotionSensor) (c : Clock) (random : ℚ) : Reading × MotionSensor :=
  if !s.isActive then
    (Reading.plain (some 0) (some unit) c.iso type "inactive", s)
  else
    let motionDetected := decide (random < s.sensitivity)
    let motionStartTime :=
      if motionDetected && !s.lastMotion then some c.now else s.motionStartTime
    ({ Reading.plain (some (if motionDetected then 1 else 0)) none c.iso type
         (if motionDetected then "detected" else "clear") with
         duration := some (match motionStartTime with
                           | some start => c.now - start
                           | none => 0),
         location := some "Indoor",
         sensitivity := some s.sensitivity },
     { s with motionStartTime := motionStartTime, lastMotion := motionDetected })

def toggle (s : MotionSensor) : MotionSensor :=
  { s with isActive := !s.isActive }

def calibrate (s : MotionSensor) (newSensitivity : JSValue) : MotionSensor :=
  match newSensitivity with
  | .num q =>
    if (JSValue.num q).truthy && (JSValue.num q).isNumber && decide (q > 0) && decide (q ≤ 1) then
      { s with sensitivity := q }
    else s
  | _ => s

end MotionSensor

/-! ## sensors/pressure.js -/

structure PressureSensor where
  currentValue : ℚ
  isActive : Bool
deriving DecidableEq

namespace PressureSensor

def type : String := "pressure"
def unit : String := "hPa"
def minValue : ℚ := 980
def maxValue : ℚ := 1050

def default : PressureSensor := { currentValue := 101325 / 100, isActive := true }

def readValue (s : PressureSensor) (c : Clock) (random : ℚ) : Reading × PressureSensor :=
  if !s.isActive then
    (Reading.plain none (some unit) c.iso type "inactive", s)
  else
    let variation := (random - 1 / 2) * 2
    let currentValue := s.currentValue + variation
    let currentValue := max minValue (min maxValue currentValue)
    ({ Reading.plain (some (roundTo 100 currentValue)) (some unit) c.iso type "active" with
         location := some "Indoor", accuracy := some "±0.1 hPa" },
     { s with currentValue := currentValue })

def toggle (s : PressureSensor) : PressureSensor :=
  { s with isActive := !s.isActive }

def calibrate (s : PressureSensor) (referenceValue : JSValue) : PressureSensor :=
  match referenceValue with
  | .num q =>
    if (JSValue.num q).truthy && (JSValue.num q).isNumber then
      { s with currentValue := q }
    else s
  | _ => s

end PressureSensor

/-! ## sensors/airquality.js -/

structure AirQualitySensor where
  currentAQI : ℚ
  co2Level : ℚ
  vocLevel : ℚ
  isActive : Bool
deriving DecidableEq

namespace AirQualitySensor

def type : String := "airquality"
def unit : String := "AQI"

def default : AirQualitySensor :=
  { currentAQI := 25, co2Level := 400, vocLevel := 1 / 10, isActive := true }

def getAQILevel (aqi : ℚ) : Level :=
  if aqi ≤ 50 then { level := "Good", color := "#00E400" }
  else if aqi ≤ 100 then { level := "Moderate", color := "#FFFF00" }
  else if aqi ≤ 150 then { level := "Unhealthy for Sensitive", color := "#FF7E00" }
  else if aqi ≤ 200 then { level := "Unhealthy", color := "#FF0000" }
  else if aqi ≤ 300 then { level := "Very Unhealthy", color := "#8F3F97" }
  else { level := "Hazardous", color := "#7E0023" }

/-- The three draws are the three `Math.random()` calls, in program order. -/
def readValue (s : AirQualitySensor) (c : Clock) (random1 random2 random3 : ℚ) :
    Reading × AirQualitySensor :=
  if !s.isActive then
    (Reading.plain none (some unit) c.iso type "inactive", s)
  else
    let aqiVariation := (random1 - 1 / 2) * 10
    let currentAQI := max 0 (min 300 (s.currentAQI + aqiVariation))
    let co2Level := s.co2Level + (random2 - 1 / 2) * 20
    let co2Level := max 350 (min 2000 co2Level)
    let vocLevel := s.vocLevel + (random3 - 1 / 2) * (1 / 10)
    let vocLevel := max 0 (min 5 vocLevel)
    let aqiLevel := getAQILevel currentAQI
    ({ Reading.plain (some (mathRound currentAQI)) (some unit) c.iso type "active" with
         level := some aqiLevel,
         co2 := some (mathRound co2Level),
         voc := some (roundTo 1000 vocLevel),
         location := some "Indoor" },
     { s with currentAQI := currentAQI, co2Level := co2Level, vocLevel := vocLevel })

def toggle (s : AirQualitySensor) : AirQualitySensor :=
  { s with isActive := !s.isActive }

/-- The method `calibrate()` declares no parameter: an argument passed to it is ignored. -/
def calibrate (s : AirQualitySensor) (_ignored : JSValue) : AirQualitySensor :=
  { s with currentAQI := 25, co2Level := 400, vocLevel := 1 / 10 }

end AirQualitySensor

/-! ## sensors/sound.js -/

structure SoundSensor where
  currentLevel : ℚ
  isActive : Bool
  peakLevel : ℚ
  averageLevel : ℚ
  calibrationOffset : ℚ
  sensitivity : ℚ
deriving DecidableEq

namespace SoundSensor

def type : String := "sound"
def unit : String := "dB"
def minLevel : ℚ := 20
def maxLevel : ℚ := 120

def default : SoundSensor :=
  { currentLevel := 35, isActive := true, peakLevel := 35, averageLevel := 35,
    calibrationOffset := 0, sensitivity := 1 }

def getNoiseLevel (db : ℚ) : Level :=
  if db < 30 then { level := "Very Quiet", color := "#4CAF50" }
  else if db < 40 then { level := "Quiet", color := "#8BC34A" }
  else if db < 55 then { level := "Moderate", color := "#FFEB3B" }
  else if db < 70 then { level := "Loud", color := "#FF9800" }
  else if db < 85 then { level := "Very Loud", color := "#FF5722" }
  else { level := "Harmful", color := "#F44336" }

/-- The `targetLevel` computed for a sample. `random1` is the day or night draw,
`random2` the spike test, and `random3` the spike size, drawn only when the test
succeeds. -/
def targetLevel (hour : Nat) (random1 random2 random3 : ℚ) : ℚ :=
  let baseLevel : ℚ := 35
  let targetLevel :=
    if hour ≥ 6 ∧ hour ≤ 22 then baseLevel + random1 * 20 else baseLevel + random1 * 5
  if random2 < 1 / 10 then targetLevel + random3 * 30 else targetLevel

def readValue (s : SoundSensor) (c : Clock) (random1 random2 random3 : ℚ) :
    Reading × SoundSensor :=
  if !s.isActive then
    (Reading.plain none (some unit) c.iso type "inactive", s)
  else
    let targetLevel := targetLevel c.hour random1 random2 random3
    let currentLevel := s.currentLevel + (targetLevel - s.currentLevel) * (3 / 10)
    let currentLevel := max minLevel (min maxLevel currentLevel)
    let peakLevel := max (s.peakLevel * (99 / 100)) currentLevel
    let averageLevel := s.averageLevel * (9 / 10) + currentLevel * (1 / 10)
    let noiseLevel := getNoiseLevel currentLevel
    ({ Reading.plain (some (roundTo 10 currentLevel)) (some unit) c.iso type "active" with
         level := some noiseLevel,
         peak := some (roundTo 10 peakLevel),
         average := some (roundTo 10 averageLevel),
         location := some "Indoor" },
     { s with currentLevel := currentLevel, peakLevel := peakLevel,
              averageLevel := averageLevel })

def toggle (s : SoundSensor) : SoundSensor :=
  { s with isActive := !s.isActive }

/-- The parameter default `referenceDB = null` replaces `undefined` by `null`. -/
def calibrate (s : SoundSensor) (referenceDB : JSValue) : SoundSensor :=
  let referenceDB := if referenceDB = JSValue.undefined then JSValue.null else referenceDB
  match referenceDB with
  | .num q =>
    if (JSValue.num q).truthy && (JSValue.num q).isNumber then
      { s with calibrationOffset := q - s.currentLevel }
    else
      { s with peakLevel := s.currentLevel, averageLevel := s.currentLevel }
  | _ => { s with peakLevel := s.currentLevel, averageLevel := s.currentLevel }

def setSensitivity (s : SoundSensor) (sensitivity : ℚ) : SoundSensor :=
  if sensitivity > 0 ∧ sensitivity ≤ 2 then { s with sensitivity := sensitivity } else s

end SoundSensor

/-! ## src/server.js -/

/-- The keys of the `sensors` registry. -/
inductive SensorType where
  | temperature
  | humidity
  | motion
  | light
  | pressure
  | airquality
  | sound
deriving DecidableEq

/-- The keys of `sensorData`: the seven sensor types and `timestamp`. -/
inductive HistoryKey where
  | sensor (t : SensorType)
  | timestamp
deriving DecidableEq

/-- The list `Object.entries(sensors)`, in the insertion order of the registry. -/
def sensorEntries : List SensorType :=
  [.temperature, .humidity, .motion, .light, .pressure, .airquality, .sound]

/-- The list `Object.keys(sensorData)`, in insertion order. -/
def sensorDataKeys : List HistoryKey :=
  [.sensor .temperature, .sensor .humidity, .sensor .pressure, .sensor .airquality,
   .sensor .sound, .sensor .motion, .sensor .light, .timestamp]

/-- The in-memory history object: one array per key. -/
abbrev SensorData := HistoryKey → List JSValue

/-- The object `sensorData` as created at startup: eight empty arrays. -/
def sensorData : SensorData := fun _ => []

/-- The object `data` built by one call of `generateSensorData`. `value t` is
`data[t]` (`undefined` until assigned) and `info t` is the property `t_info`
(`none` while the property is absent). -/
structure Snapshot where
  timestamp : String
  value : SensorType → JSValue
  info : SensorType → Option Reading

/-- The property read `data[key]` for a key of `sensorData`. -/
def Snapshot.get (data : Snapshot) : HistoryKey → JSValue
  | .sensor t => data.value t
  | .timestamp => .str data.timestamp

/-- The body of the `for` loop for one registry entry. `outcome` is the outcome of
`await sensor.readValue()`: `.ok reading` when the promise is fulfilled, `.error e`
when it is rejected, which the `catch` clause handles. -/
def recordReading (sensorData : SensorData) (data : Snapshot) (sensorType : SensorType)
    (outcome : Except String Reading) : Snapshot :=
  match outcome with
  | .ok reading =>
    let data := { data with
      value := Function.update data.value sensorType (JSValue.ofOption reading.value) }
    if (sensorData (.sensor sensorType)).length = 0 then
      { data with info := Function.update data.info sensorType (some reading) }
    else data
  | .error _ =>
    { data with value := Function.update data.value sensorType JSValue.null }

/-- The body of the `forEach` callback: push, then shift when longer than 100. -/
def storeLast100 (buffer : List JSValue) (entry : JSValue) : List JSValue :=
  let buffer := buffer ++ [entry]
  if buffer.length > 100 then buffer.tail else buffer

/-- The function `generateSensorData`. `iso` is `now.toISOString()` and `reads t` is the
outcome of awaiting `readValue` of the sensor registered under `t`. Returns `data` and
the updated `sensorData`. -/
def generateSensorData (iso : String) (reads : SensorType → Except String Reading)
    (sensorData : SensorData) : Snapshot × SensorData :=
  let data : Snapshot :=
    { timestamp := iso, value := fun _ => JSValue.undefined, info := fun _ => none }
  let data := sensorEntries.foldl
    (fun data sensorType => recordReading sensorData data sensorType (reads sensorType)) data
  let sensorData := sensorDataKeys.foldl
    (fun sensorData key => Function.update sensorData key (storeLast100 (sensorData key) (data.get key)))
    sensorData
  (data, sensorData)

/-- One call of `generateSensorData` as seen from outside: the timestamp and the
outcomes of the seven reads. -/
structure Cycle where
  iso : String
  reads : SensorType → Except String Reading

/-- Successive calls of `generateSensorData` (timer ticks, `getSensorData` messages,
connections and `/api/sensors/current` requests all call the same function): the
snapshots returned, in call order, and the final `sensorData`. -/
def runCycles (cycles : List Cycle) (sensorData : SensorData) : List Snapshot × SensorData :=
  cycles.foldl
    (fun acc cycle =>
      let result := generateSensorData cycle.iso cycle.reads acc.2
      (acc.1 ++ [result.1], result.2))
    ([], sensorData)

/-! ## Sequences of calls -/

/-- The readings returned by successive calls of a `readValue`, one call per input. -/
def readSeq {σ ι : Type} (read : σ → ι → Reading × σ) : σ → List ι → List Reading
  | _, [] => []
  | s, i :: rest => (read s i).1 :: readSeq read (read s i).2 rest

/-- The object after successive calls of a `readValue`, one call per input. -/
def readAll {σ ι : Type} (read : σ → ι → Reading × σ) : σ → List ι → σ
  | s, [] => s
  | s, i :: rest => readAll read (read s i).2 rest

/-! ## Declared ranges -/

/-- The stored value lies in the range that `getStatus` reports,
`baseTemp - variance` to `baseTemp + variance`. -/
def TemperatureSensor.inRange (s : TemperatureSensor) : Prop :=
  s.baseTemp - s.variance ≤ s.currentValue ∧ s.currentValue ≤ s.baseTemp + s.variance

/-- The stored value lies in the range that `getStatus` reports, `0-100`. -/
def HumiditySensor.inRange (s : HumiditySensor) : Prop :=
  0 ≤ s.currentValue ∧ s.currentValue ≤ 100

/-- The stored value lies in the range that `getStatus` reports, `0-1000`. -/
def LightSensor.inRange (s : LightSensor) : Prop :=
  0 ≤ s.currentValue ∧ s.currentValue ≤ 1000

/-- The stored value lies in the range that `getStatus` reports, `minValue` to
`maxValue`. -/
def PressureSensor.inRange (s : PressureSensor) : Prop :=
  PressureSensor.minValue ≤ s.currentValue ∧ s.currentValue ≤ PressureSensor.maxValue

/-- The three stored quantities lie in the ranges `readValue` clamps them to. -/
def AirQualitySensor.inRange (s : AirQualitySensor) : Prop :=
  (0 ≤ s.currentAQI ∧ s.currentAQI ≤ 300) ∧ (350 ≤ s.co2Level ∧ s.co2Level ≤ 2000) ∧
    (0 ≤ s.vocLevel ∧ s.vocLevel ≤ 5)

/-- The stored level lies in the range that `getStatus` reports, `minLevel` to
`maxLevel`. -/
def SoundSensor.inRange (s : SoundSensor) : Prop :=
  SoundSensor.minLevel ≤ s.currentLevel ∧ s.currentLevel ≤ SoundSensor.maxLevel

instance (s : TemperatureSensor) : Decidable s.inRange := by
  unfold TemperatureSensor.inRange; infer_instance

instance (s : HumiditySensor) : Decidable s.inRange := by
  unfold HumiditySensor.inRange; infer_instance

instance (s : LightSensor) : Decidable s.inRange := by
  unfold LightSensor.inRange; infer_instance

instance (s : PressureSensor) : Decidable s.inRange := by
  unfold PressureSensor.inRange; infer_instance

instance (s : AirQualitySensor) : Decidable s.inRange := by
  unfold AirQualitySensor.inRange; infer_instance

instance (s : SoundSensor) : Decidable s.inRange := by
  unfold SoundSensor.inRange; infer_instance

/-! ## src/server.js: property lookup, the history route and the control handler -/

/-- The result of a property read `object[name]` on one of the two object literals
`sensors` and `sensorData`: an own property of the literal, a member inherited from
`Object.prototype` (a function, or the prototype object for `__proto__`; truthy, and
neither a sensor nor an array), or `undefined`. -/
inductive Property (α : Type) where
  | own (value : α)
  | inherited
  | undefined
deriving DecidableEq

/-- The truthiness of a property read, as tested by `if (object[name])`: objects, arrays
(empty ones too) and functions are truthy, `undefined` is falsy. -/
def Property.truthy {α : Type} : Property α → Bool
  | .own _ => true
  | .inherited => true
  | .undefined => false

/-- The property names that every object literal inherits from `Object.prototype`. -/
def objectPrototypeNames : List String :=
  ["constructor", "__defineGetter__", "__defineSetter__", "hasOwnProperty",
   "__lookupGetter__", "__lookupSetter__", "isPrototypeOf", "propertyIsEnumerable",
   "toString", "valueOf", "__proto__", "toLocaleString"]

/-- The key of the `sensors` literal with the given name, when there is one. -/
def SensorType.ofName? (name : String) : Option SensorType :=
  if name = "temperature" then some .temperature
  else if name = "humidity" then some .humidity
  else if name = "motion" then some .motion
  else if name = "light" then some .light
  else if name = "pressure" then some .pressure
  else if name = "airquality" then some .airquality
  else if name = "sound" then some .sound
  else none

/-- The key of the `sensorData` literal with the given name, when there is one. -/
def HistoryKey.ofName? (name : String) : Option HistoryKey :=
  if name = "timestamp" then some .timestamp
  else (SensorType.ofName? name).map HistoryKey.sensor

/-- The property read `sensors[name]`; an own property is given by its key. -/
def lookupSensor (name : String) : Property SensorType :=
  match SensorType.ofName? name with
  | some t => .own t
  | none => if name ∈ objectPrototypeNames then .inherited else .undefined

/-- The property read `sensorData[name]`. -/
def lookupSensorData (sensorData : SensorData) (name : String) : Property (List JSValue) :=
  match HistoryKey.ofName? name with
  | some key => .own (sensorData key)
  | none => if name ∈ objectPrototypeNames then .inherited else .undefined

/-- The answer of the route `GET /api/sensors/:type`: the JSON body
`{ type, data, timestamps }` with status 200, or status 404 with `{ error }`. -/
inductive HistoryResponse where
  | json (type : String) (data : Property (List JSValue)) (timestamps : List JSValue)
  | notFound (error : String)
deriving DecidableEq

/-- The handler of `GET /api/sensors/:type`. -/
def getSensorsByType (sensorData : SensorData) (type : String) : HistoryResponse :=
  if (lookupSensorData sensorData type).truthy then
    .json type (lookupSensorData sensorData type) (sensorData .timestamp)
  else
    .notFound "Sensor type not found"

/-- The registry object `sensors`. -/
structure Sensors where
  temperature : TemperatureSensor
  humidity : HumiditySensor
  motion : MotionSensor
  light : LightSensor
  pressure : PressureSensor
  airquality : AirQualitySensor
  sound : SoundSensor
deriving DecidableEq

/-- The registry as created at startup. -/
def sensors : Sensors :=
  { temperature := TemperatureSensor.default, humidity := HumiditySensor.default,
    motion := MotionSensor.default, light := LightSensor.default,
    pressure := PressureSensor.default, airquality := AirQualitySensor.default,
    sound := SoundSensor.default }

/-- The call `sensors[t].toggle()`. -/
def Sensors.toggle (ss : Sensors) : SensorType → Sensors
  | .temperature => { ss with temperature := ss.temperature.toggle }
  | .humidity => { ss with humidity := ss.humidity.toggle }
  | .motion => { ss with motion := ss.motion.toggle }
  | .light => { ss with light := ss.light.toggle }
  | .pressure => { ss with pressure := ss.pressure.toggle }
  | .airquality => { ss with airquality := ss.airquality.toggle }
  | .sound => { ss with sound := ss.sound.toggle }

/-- The call `sensors[t].calibrate(value)`. -/
def Sensors.calibrate (ss : Sensors) (t : SensorType) (value : JSValue) : Sensors :=
  match t with
  | .temperature => { ss with temperature := ss.temperature.calibrate value }
  | .humidity => { ss with humidity := ss.humidity.calibrate value }
  | .motion => { ss with motion := ss.motion.calibrate value }
  | .light => { ss with light := ss.light.calibrate value }
  | .pressure => { ss with pressure := ss.pressure.calibrate value }
  | .airquality => { ss with airquality := ss.airquality.calibrate value }
  | .sound => { ss with sound := ss.sound.calibrate value }

/-- The process-wide mutable state of `server.js`. -/
structure Hub where
  sensors : Sensors
  sensorData : SensorData

/-- The payload of a `controlDevice` message: an object whose `device` is a string;
`type`, `action` and `value` are any values (`undefined` when absent). -/
structure Command where
  type : JSValue
  device : String
  action : JSValue
  value : JSValue

/-- The payload of the `deviceResponse` message. -/
structure DeviceResponse where
  device : String
  status : String
  timestamp : String
deriving DecidableEq

/-- The handler of `controlDevice`. `iso` is `new Date().toISOString()`. The result is
`.ok` with the new state and the emitted `deviceResponse`, or `.error` when a statement
throws before `socket.emit` is reached: calling `toggle` or `calibrate` on an inherited
member of `Object.prototype` is a `TypeError`. -/
def controlDevice (hub : Hub) (data : Command) (iso : String) :
    Except String (Hub × DeviceResponse) :=
  let response : DeviceResponse :=
    { device := data.device, status := "command_executed", timestamp := iso }
  if data.type = JSValue.str "sensor" ∧ (lookupSensor data.device).truthy = true then
    if data.action = JSValue.str "toggle" then
      match lookupSensor data.device with
      | .own t => .ok ({ hub with sensors := hub.sensors.toggle t }, response)
      | _ => .error "TypeError: sensors[data.device].toggle is not a function"
    else if data.action = JSValue.str "calibrate" then
      match lookupSensor data.device with
      | .own t => .ok ({ hub with sensors := hub.sensors.calibrate t data.value }, response)
      | _ => .error "TypeError: sensors[data.device].calibrate is not a function"
    else .ok (hub, response)
  else .ok (hub, response)

/-! ## The wording of the specification, for comparison with the code -/

/-- The function `clamp(x, lo, hi)` of the specification, `max(lo, min(hi, x))`. -/
def clamp (x lo hi : ℚ) : ℚ := max lo (min hi x)

/-- The time-of-day multiplier as the specification words it: 0.1 for hours below 6 or
above 20, 0.5 for hours in [6, 8) or (18, 20], and 1 otherwise. -/
def lightMultiplierSpec (h : Nat) : ℚ :=
  if h < 6 ∨ h > 20 then 1 / 10
  else if (6 ≤ h ∧ h < 8) ∨ (18 < h ∧ h ≤ 20) then 1 / 2
  else 1

/-- The target level as the specification words it: 35, plus `u1` times 20 for hours in
[6, 22] and times 5 otherwise, plus a spike of `u3` times 30 when `u2 < 0.1`. -/
def soundTargetSpec (hour : Nat) (u1 u2 u3 : ℚ) : ℚ :=
  35 + u1 * (if 6 ≤ hour ∧ hour ≤ 22 then 20 else 5) + (if u2 < 1 / 10 then u3 * 30 else 0)

/-- The six air-quality tiers of the specification, in order, with their colours. -/
def aqiTiers : List Level :=
  [⟨"Good", "#00E400"⟩, ⟨"Moderate", "#FFFF00"⟩, ⟨"Unhealthy for Sensitive", "#FF7E00"⟩,
   ⟨"Unhealthy", "#FF0000"⟩, ⟨"Very Unhealthy", "#8F3F97"⟩, ⟨"Hazardous", "#7E0023"⟩]

/-- The six noise tiers, in order, with the colours `getNoiseLevel` gives them. -/
def noiseTiers : List Level :=
  [⟨"Very Quiet", "#4CAF50"⟩, ⟨"Quiet", "#8BC34A"⟩, ⟨"Moderate", "#FFEB3B"⟩,
   ⟨"Loud", "#FF9800"⟩, ⟨"Very Loud", "#FF5722"⟩, ⟨"Harmful", "#F44336"⟩]

/-- The position of a classification in a list of tiers (the length of the list when
it is not in it). -/
def tierIndex (tiers : List Level) (l : Level) : Nat := tiers.indexOf l

/-- One call on the sound sensor: `readValue` with its clock and draws, `toggle`, or
`calibrate` with its argument. -/
inductive SoundCall where
  | readValue (c : Clock) (random1 random2 random3 : ℚ)
  | toggle
  | calibrate (referenceDB : JSValue)

/-- The draws of a call lie in [0, 1), as `Math.random()` guarantees. -/
def SoundCall.drawsInUnit : SoundCall → Prop
  | .readValue _ random1 random2 random3 =>
    (0 ≤ random1 ∧ random1 < 1) ∧ (0 ≤ random2 ∧ random2 < 1) ∧ (0 ≤ random3 ∧ random3 < 1)
  | .toggle => True
  | .calibrate _ => True

/-- The sensor after one call, with the reading when the call is a `readValue`. -/
def SoundSensor.call (s : SoundSensor) : SoundCall → Option Reading × SoundSensor
  | .readValue c random1 random2 random3 =>
    (some (s.readValue c random1 random2 random3).1, (s.readValue c random1 random2 random3).2)
  | .toggle => (none, s.toggle)
  | .calibrate referenceDB => (none, s.calibrate referenceDB)

/-- The sensor after a sequence of calls, and the readings returned on the way. -/
def SoundSensor.run : SoundSensor → List SoundCall → List Reading × SoundSensor
  | s, [] => ([], s)
  | s, call :: rest =>
    let step := s.call call
    let tail := SoundSensor.run step.2 rest
    (match step.1 with
     | some reading => reading :: tail.1
     | none => tail.1, tail.2)

instance (call : SoundCall) : Decidable call.drawsInUnit := by
  cases call <;> unfold SoundCall.drawsInUnit <;> infer_instance

/-! # Verification -/

/-! ## Rounding and clamping -/

theorem le_mathRound {a : ℤ} {x : ℚ} (h : (a : ℚ) ≤ x) : a ≤ mathRound x := by
  unfold mathRound
  exact Int.le_floor.mpr (by linarith)

theorem mathRound_le {b : ℤ} {x : ℚ} (h : x ≤ (b : ℚ)) : mathRound x ≤ b := by
  unfold mathRound
  have h1 : ⌊x + 1 / 2⌋ < b + 1 := Int.floor_lt.mpr (by push_cast; linarith)
  omega

theorem mathRound_cast_bounds {a b : ℤ} {x : ℚ} (ha : (a : ℚ) ≤ x) (hb : x ≤ (b : ℚ)) :
    (a : ℚ) ≤ (mathRound x : ℚ) ∧ (mathRound x : ℚ) ≤ (b : ℚ) :=
  ⟨by exact_mod_cast le_mathRound ha, by exact_mod_cast mathRound_le hb⟩

theorem roundTo_bounds {a b : ℤ} {k : ℕ} (hk : 0 < k) {x : ℚ} (ha : (a : ℚ) ≤ x)
    (hb : x ≤ (b : ℚ)) : (a : ℚ) ≤ roundTo k x ∧ roundTo k x ≤ (b : ℚ) := by
  have hk' : (0 : ℚ) < (k : ℚ) := by exact_mod_cast hk
  have h1 : ((a * (k : ℤ) : ℤ) : ℚ) ≤ x * k := by
    push_cast; exact mul_le_mul_of_nonneg_right ha hk'.le
  have h2 : x * k ≤ ((b * (k : ℤ) : ℤ) : ℚ) := by
    push_cast; exact mul_le_mul_of_nonneg_right hb hk'.le
  obtain ⟨h3, h4⟩ := mathRound_cast_bounds h1 h2
  unfold roundTo
  constructor
  · rw [le_div_iff₀ hk']; push_cast at h3; exact h3
  · rw [div_le_iff₀ hk']; push_cast at h4; exact h4

theorem clamp_bounds (lo hi : ℚ) (h : lo ≤ hi) (x : ℚ) :
    lo ≤ max lo (min hi x) ∧ max lo (min hi x) ≤ hi :=
  ⟨le_max_left _ _, max_le h (min_le_left _ _)⟩

theorem readSeq_forall {σ ι : Type} (read : σ → ι → Reading × σ) (inv : σ → Prop)
    (P : Reading → Prop) (hstep : ∀ s i, inv s → P (read s i).1 ∧ inv (read s i).2) :
    ∀ (inputs : List ι) (s : σ), inv s → ∀ rd ∈ readSeq read s inputs, P rd := by
  intro inputs
  induction inputs with
  | nil => intro s _ rd h; simp [readSeq] at h
  | cons i rest ih =>
    intro s hs rd h
    simp only [readSeq, List.mem_cons] at h
    rcases h with h | h
    · rw [h]; exact (hstep s i hs).1
    · exact ih _ (hstep s i hs).2 rd h

/-! ## Reported values of the clamped sensors -/

theorem humidity_readValue_active (s : HumiditySensor) (c : Clock) (r : ℚ)
    (h : s.isActive = true) :
    (∃ v, (s.readValue c r).1.value = some v ∧ 0 ≤ v ∧ v ≤ 100) ∧
      (s.readValue c r).2.isActive = true := by
  have hb := clamp_bounds 0 100 (by norm_num)
    (s.currentValue + (r - 1 / 2) * 3 * (3 / 10))
  have hr := roundTo_bounds (a := 0) (b := 100) (k := 10) (by norm_num)
    (by exact_mod_cast hb.1) (by exact_mod_cast hb.2)
  simp only [HumiditySensor.readValue, h, Reading.plain]
  refine ⟨⟨_, rfl, ?_, ?_⟩, rfl⟩
  · simpa using hr.1
  · simpa using hr.2

theorem light_readValue_active (s : LightSensor) (c : Clock) (r : ℚ)
    (h : s.isActive = true) :
    (∃ v, (s.readValue c r).1.value = some v ∧ 0 ≤ v ∧ v ≤ 1000) ∧
      (s.readValue c r).2.isActive = true := by
  have hb := clamp_bounds 0 1000 (by norm_num)
    ((s.currentValue + (r - 1 / 2) * 100 * (1 / 5)) * LightSensor.timeOfDayMultiplier c.hour)
  have hr := mathRound_cast_bounds (a := 0) (b := 1000)
    (by exact_mod_cast hb.1) (by exact_mod_cast hb.2)
  simp only [LightSensor.readValue, h, Reading.plain]
  refine ⟨⟨_, rfl, ?_, ?_⟩, rfl⟩
  · simpa using hr.1
  · simpa using hr.2

theorem pressure_readValue_active (s : PressureSensor) (c : Clock) (r : ℚ)
    (h : s.isActive = true) :
    (∃ v, (s.readValue c r).1.value = some v ∧ 980 ≤ v ∧ v ≤ 1050) ∧
      (s.readValue c r).2.isActive = true := by
  have hb := clamp_bounds 980 1050 (by norm_num)
    (s.currentValue + (r - 1 / 2) * 2)
  have hr := roundTo_bounds (a := 980) (b := 1050) (k := 100) (by norm_num)
    (by exact_mod_cast hb.1) (by exact_mod_cast hb.2)
  simp only [PressureSensor.readValue, h, Reading.plain, PressureSensor.minValue,
    PressureSensor.maxValue]
  refine ⟨⟨_, rfl, ?_, ?_⟩, rfl⟩
  · simpa using hr.1
  · simpa using hr.2

theorem airquality_readValue_active (s : AirQualitySensor) (c : Clock) (r1 r2 r3 : ℚ)
    (h : s.isActive = true) :
    (∃ v co2 voc, (s.readValue c r1 r2 r3).1.value = some v ∧
        (s.readValue c r1 r2 r3).1.co2 = some co2 ∧
        (s.readValue c r1 r2 r3).1.voc = some voc ∧
        (0 ≤ v ∧ v ≤ 300) ∧ (350 ≤ co2 ∧ co2 ≤ 2000) ∧ (0 ≤ voc ∧ voc ≤ 5)) ∧
      (s.readValue c r1 r2 r3).2.isActive = true := by
  have hb1 := clamp_bounds 0 300 (by norm_num)
    (s.currentAQI + (r1 - 1 / 2) * 10)
  have hb2 := clamp_bounds 350 2000 (by norm_num)
    (s.co2Level + (r2 - 1 / 2) * 20)
  have hb3 := clamp_bounds 0 5 (by norm_num)
    (s.vocLevel + (r3 - 1 / 2) * (1 / 10))
  have hr1 := mathRound_cast_bounds (a := 0) (b := 300)
    (by exact_mod_cast hb1.1) (by exact_mod_cast hb1.2)
  have hr2 := mathRound_cast_bounds (a := 350) (b := 2000)
    (by exact_mod_cast hb2.1) (by exact_mod_cast hb2.2)
  have hr3 := roundTo_bounds (a := 0) (b := 5) (k := 1000) (by norm_num)
    (by exact_mod_cast hb3.1) (by exact_mod_cast hb3.2)
  simp only [AirQualitySensor.readValue, h, Reading.plain]
  refine ⟨⟨_, _, _, rfl, rfl, rfl, ⟨?_, ?_⟩, ⟨?_, ?_⟩, ⟨?_, ?_⟩⟩, rfl⟩
  · simpa using hr1.1
  · simpa using hr1.2
  · simpa using hr2.1
  · simpa using hr2.2
  · simpa using hr3.1
  · simpa using hr3.2

theorem sound_readValue_active (s : SoundSensor) (c : Clock) (r1 r2 r3 : ℚ)
    (h : s.isActive = true) :
    (∃ v, (s.readValue c r1 r2 r3).1.value = some v ∧ 20 ≤ v ∧ v ≤ 120) ∧
      (s.readValue c r1 r2 r3).2.isActive = true := by
  have hb := clamp_bounds 20 120 (by norm_num)
    (s.currentLevel + (SoundSensor.targetLevel c.hour r1 r2 r3 - s.currentLevel) * (3 / 10))
  have hr := roundTo_bounds (a := 20) (b := 120) (k := 10) (by norm_num)
    (by exact_mod_cast hb.1) (by exact_mod_cast hb.2)
  simp only [SoundSensor.readValue, h, Reading.plain, SoundSensor.minLevel,
    SoundSensor.maxLevel]
  refine ⟨⟨_, rfl, ?_, ?_⟩, rfl⟩
  · simpa using hr.1
  · simpa using hr.2

/-- C1. For the humidity, light, pressure, air-quality and sound sensors, an active
`readValue` from any stored state, with any draws and any clock, reports values inside
the declared bounds: humidity in [0,100], light in [0,1000], pressure in [980,1050],
air quality in [0,300] with co2 in [350,2000] and voc in [0,5], sound in [20,120]; and
so does every reading of any sequence of `readValue` calls on an active sensor. -/
theorem readValue_within_declared_bounds :
    (∀ (s : HumiditySensor) (inputs : List (Clock × ℚ)), s.isActive = true →
      (∀ c r, ∃ v, (s.readValue c r).1.value = some v ∧ 0 ≤ v ∧ v ≤ 100) ∧
      ∀ rd ∈ readSeq (fun s i => HumiditySensor.readValue s i.1 i.2) s inputs,
        ∃ v, rd.value = some v ∧ 0 ≤ v ∧ v ≤ 100) ∧
    (∀ (s : LightSensor) (inputs : List (Clock × ℚ)), s.isActive = true →
      (∀ c r, ∃ v, (s.readValue c r).1.value = some v ∧ 0 ≤ v ∧ v ≤ 1000) ∧
      ∀ rd ∈ readSeq (fun s i => LightSensor.readValue s i.1 i.2) s inputs,
        ∃ v, rd.value = some v ∧ 0 ≤ v ∧ v ≤ 1000) ∧
    (∀ (s : PressureSensor) (inputs : List (Clock × ℚ)), s.isActive = true →
      (∀ c r, ∃ v, (s.readValue c r).1.value = some v ∧ 980 ≤ v ∧ v ≤ 1050) ∧
      ∀ rd ∈ readSeq (fun s i => PressureSensor.readValue s i.1 i.2) s inputs,
        ∃ v, rd.value = some v ∧ 980 ≤ v ∧ v ≤ 1050) ∧
    (∀ (s : AirQualitySensor) (inputs : List (Clock × ℚ × ℚ × ℚ)), s.isActive = true →
      (∀ c r1 r2 r3, ∃ v co2 voc, (s.readValue c r1 r2 r3).1.value = some v ∧
        (s.readValue c r1 r2 r3).1.co2 = some co2 ∧
        (s.readValue c r1 r2 r3).1.voc = some voc ∧
        (0 ≤ v ∧ v ≤ 300) ∧ (350 ≤ co2 ∧ co2 ≤ 2000) ∧ (0 ≤ voc ∧ voc ≤ 5)) ∧
      ∀ rd ∈ readSeq (fun s i => AirQualitySensor.readValue s i.1 i.2.1 i.2.2.1 i.2.2.2)
          s inputs,
        ∃ v co2 voc, rd.value = some v ∧ rd.co2 = some co2 ∧ rd.voc = some voc ∧
          (0 ≤ v ∧ v ≤ 300) ∧ (350 ≤ co2 ∧ co2 ≤ 2000) ∧ (0 ≤ voc ∧ voc ≤ 5)) ∧
    (∀ (s : SoundSensor) (inputs : List (Clock × ℚ × ℚ × ℚ)), s.isActive = true →
      (∀ c r1 r2 r3, ∃ v, (s.readValue c r1 r2 r3).1.value = some v ∧ 20 ≤ v ∧ v ≤ 120) ∧
      ∀ rd ∈ readSeq (fun s i => SoundSensor.readValue s i.1 i.2.1 i.2.2.1 i.2.2.2)
          s inputs,
        ∃ v, rd.value = some v ∧ 20 ≤ v ∧ v ≤ 120) := by
  refine ⟨?_, ?_, ?_, ?_, ?_⟩
  · intro s inputs h
    exact ⟨fun c r => (humidity_readValue_active s c r h).1,
      readSeq_forall _ (fun s => s.isActive = true) _
        (fun s i hs => humidity_readValue_active s i.1 i.2 hs) inputs s h⟩
  · intro s inputs h
    exact ⟨fun c r => (light_readValue_active s c r h).1,
      readSeq_forall _ (fun s => s.isActive = true) _
        (fun s i hs => light_readValue_active s i.1 i.2 hs) inputs s h⟩
  · intro s inputs h
    exact ⟨fun c r => (pressure_readValue_active s c r h).1,
      readSeq_forall _ (fun s => s.isActive = true) _
        (fun s i hs => pressure_readValue_active s i.1 i.2 hs) inputs s h⟩
  · intro s inputs h
    exact ⟨fun c r1 r2 r3 => (airquality_readValue_active s c r1 r2 r3 h).1,
      readSeq_forall _ (fun s => s.isActive = true) _
        (fun s i hs => airquality_readValue_active s i.1 i.2.1 i.2.2.1 i.2.2.2 hs)
        inputs s h⟩
  · intro s inputs h
    exact ⟨fun c r1 r2 r3 => (sound_readValue_active s c r1 r2 r3 h).1,
      readSeq_forall _ (fun s => s.isActive = true) _
        (fun s i hs => sound_readValue_active s i.1 i.2.1 i.2.2.1 i.2.2.2 hs)
        inputs s h⟩

/-! ## Temperature: the clamp and the rounded report -/

theorem mathRound_eq {x : ℚ} {n : ℤ} (h1 : (n : ℚ) ≤ x + 1 / 2) (h2 : x + 1 / 2 < n + 1) :
    mathRound x = n := by
  unfold mathRound
  exact Int.floor_eq_iff.mpr ⟨h1, h2⟩

theorem roundTo_ten_near (x : ℚ) : x - 1 / 20 < roundTo 10 x ∧ roundTo 10 x ≤ x + 1 / 20 := by
  unfold roundTo mathRound
  have h1 := Int.floor_le (x * 10 + 1 / 2)
  have h2 := Int.lt_floor_add_one (x * 10 + 1 / 2)
  constructor
  · rw [lt_div_iff₀ (by norm_num)]; linarith
  · rw [div_le_iff₀ (by norm_num)]; linarith

theorem temperature_readValue_of_active (b w x : ℚ) (c : Clock) (r : ℚ) :
    TemperatureSensor.readValue ⟨b, w, x, true⟩ c r =
      ({ Reading.plain
           (some (roundTo 10 (max (b - w) (min (b + w) (x + (r - 1 / 2) * 2 * (1 / 2))))))
           (some TemperatureSensor.unit) c.iso TemperatureSensor.type "active" with
           location := some "Indoor" },
       ⟨b, w, max (b - w) (min (b + w) (x + (r - 1 / 2) * 2 * (1 / 2))), true⟩) := rfl

/-- One active temperature read: the frame, the clamp on the stored value, and the
reported value as the rounding of the stored one. -/
theorem temperature_readValue_active (s : TemperatureSensor) (c : Clock) (r : ℚ)
    (hw : 0 ≤ s.variance) (h : s.isActive = true) :
    (s.readValue c r).2.baseTemp = s.baseTemp ∧ (s.readValue c r).2.variance = s.variance ∧
    (s.readValue c r).2.isActive = true ∧
    s.baseTemp - s.variance ≤ (s.readValue c r).2.currentValue ∧
    (s.readValue c r).2.currentValue ≤ s.baseTemp + s.variance ∧
    (s.readValue c r).1.value = some (roundTo 10 (s.readValue c r).2.currentValue) := by
  obtain ⟨b, w, x, a⟩ := s
  simp only at hw h
  subst h
  rw [temperature_readValue_of_active]
  have hb := clamp_bounds (b - w) (b + w) (by linarith) (x + (r - 1 / 2) * 2 * (1 / 2))
  exact ⟨rfl, rfl, rfl, hb.1, hb.2, rfl⟩

/-- C2, counterexample. The default sensor is calibrated to 25.04, so the baseline is
25.04 and the variance 5, and is then read ten times with the draw 0: the tenth
reading reports 20, below `baseline - variance = 20.04`. -/
theorem temperature_report_below_lower_bound :
    (TemperatureSensor.default.calibrate (.num (626 / 25))).baseTemp = 626 / 25 ∧
    (TemperatureSensor.default.calibrate (.num (626 / 25))).variance = 5 ∧
    ((readSeq (fun s i => TemperatureSensor.readValue s i.1 i.2)
        (TemperatureSensor.default.calibrate (.num (626 / 25)))
        (List.replicate 10 (⟨"", 0, 0⟩, 0))).getLast?).map Reading.value = some (some 20) ∧
    ¬ ((626 : ℚ) / 25 - 5 ≤ 20) := by
  have h0 : TemperatureSensor.default.calibrate (.num (626 / 25)) =
      ⟨626 / 25, 5, 626 / 25, true⟩ := by
    simp [TemperatureSensor.default, TemperatureSensor.create, TemperatureSensor.calibrate,
      JSValue.truthy, JSValue.isNumber]
  rw [h0]
  refine ⟨rfl, rfl, ?_, by norm_num⟩
  simp only [List.replicate, readSeq, temperature_readValue_of_active,
    List.getLast?_cons_cons]
  norm_num [max_def, min_def, Reading.plain, roundTo]
  rw [mathRound_eq (x := 1002 / 5) (n := 200) (by norm_num) (by norm_num)]
  norm_num

/-- C2, amended. For a temperature sensor with variance `w ≥ 0` and baseline `b`
(whatever installed it), every active `readValue` keeps the stored value within
`[b - w, b + w]` and reports that value rounded to one decimal; so every reading of any
sequence of active reads lies within `[b - w - 0.05, b + w + 0.05]`, and within
`[b - w, b + w]` when `10 (b - w)` and `10 (b + w)` are integers, as with the defaults. -/
theorem temperature_report_near_bounds (s : TemperatureSensor) (inputs : List (Clock × ℚ))
    (hw : 0 ≤ s.variance) (h : s.isActive = true) :
    (∀ c r, s.baseTemp - s.variance ≤ (s.readValue c r).2.currentValue ∧
      (s.readValue c r).2.currentValue ≤ s.baseTemp + s.variance ∧
      (s.readValue c r).1.value = some (roundTo 10 (s.readValue c r).2.currentValue)) ∧
    ∀ rd ∈ readSeq (fun s i => TemperatureSensor.readValue s i.1 i.2) s inputs,
      ∃ v, rd.value = some v ∧
        s.baseTemp - s.variance - 1 / 20 < v ∧ v ≤ s.baseTemp + s.variance + 1 / 20 ∧
        ∀ m n : ℤ, 10 * (s.baseTemp - s.variance) = m → 10 * (s.baseTemp + s.variance) = n →
          s.baseTemp - s.variance ≤ v ∧ v ≤ s.baseTemp + s.variance := by
  constructor
  · intro c r
    obtain ⟨_, _, _, h1, h2, h3⟩ := temperature_readValue_active s c r hw h
    exact ⟨h1, h2, h3⟩
  · refine readSeq_forall _
      (fun t => t.baseTemp = s.baseTemp ∧ t.variance = s.variance ∧ t.isActive = true) _
      ?_ inputs s ⟨rfl, rfl, h⟩
    rintro t i ⟨hb, hv, ha⟩
    obtain ⟨e1, e2, e3, h1, h2, h3⟩ :=
      temperature_readValue_active t i.1 i.2 (by rw [hv]; exact hw) ha
    rw [hb, hv] at h1 h2
    refine ⟨⟨_, h3, ?_, ?_, ?_⟩, e1.trans hb, e2.trans hv, e3⟩
    · have := (roundTo_ten_near (TemperatureSensor.readValue t i.1 i.2).2.currentValue).1
      linarith
    · have := (roundTo_ten_near (TemperatureSensor.readValue t i.1 i.2).2.currentValue).2
      linarith
    · intro m n hm hn
      have hlo : ((m : ℤ) : ℚ) ≤ (TemperatureSensor.readValue t i.1 i.2).2.currentValue * 10 := by
        rw [← hm]; linarith
      have hhi : (TemperatureSensor.readValue t i.1 i.2).2.currentValue * 10 ≤ ((n : ℤ) : ℚ) := by
        rw [← hn]; linarith
      obtain ⟨k1, k2⟩ := mathRound_cast_bounds hlo hhi
      unfold roundTo
      constructor
      · rw [le_div_iff₀ (by norm_num)]; linarith
      · rw [div_le_iff₀ (by norm_num)]; linarith

theorem temperature_report_near_bounds_witness :
    (0 : ℚ) ≤ TemperatureSensor.default.variance ∧ TemperatureSensor.default.isActive = true ∧
    ∀ rd ∈ readSeq (fun s i => TemperatureSensor.readValue s i.1 i.2) TemperatureSensor.default
        [(⟨"", 0, 12⟩, 0), (⟨"", 2000, 12⟩, 1 / 2)],
      ∃ v, rd.value = some v ∧
        TemperatureSensor.default.baseTemp - TemperatureSensor.default.variance - 1 / 20 < v ∧
        v ≤ TemperatureSensor.default.baseTemp + TemperatureSensor.default.variance + 1 / 20 ∧
        ∀ m n : ℤ,
          10 * (TemperatureSensor.default.baseTemp - TemperatureSensor.default.variance) = m →
          10 * (TemperatureSensor.default.baseTemp + TemperatureSensor.default.variance) = n →
          TemperatureSensor.default.baseTemp - TemperatureSensor.default.variance ≤ v ∧
          v ≤ TemperatureSensor.default.baseTemp + TemperatureSensor.default.variance :=
  ⟨by norm_num [TemperatureSensor.default, TemperatureSensor.create], rfl,
    (temperature_report_near_bounds TemperatureSensor.default _
      (by norm_num [TemperatureSensor.default, TemperatureSensor.create]) rfl).2⟩

theorem readValue_within_declared_bounds_witness :
    HumiditySensor.default.isActive = true ∧
    ∃ v, (HumiditySensor.default.readValue ⟨"", 0, 12⟩ (1 / 2)).1.value = some v ∧
      0 ≤ v ∧ v ≤ 100 :=
  ⟨rfl, (readValue_within_declared_bounds.1 HumiditySensor.default [] rfl).1 _ _⟩

/-! ## Inactive sensors -/

theorem readAll_fixed {σ ι : Type} (read : σ → ι → Reading × σ) (s : σ)
    (h : ∀ i, (read s i).2 = s) : ∀ inputs : List ι, readAll read s inputs = s := by
  intro inputs
  induction inputs with
  | nil => rfl
  | cons i rest ih => simp only [readAll, h i, ih]

theorem temperature_readValue_inactive (s : TemperatureSensor) (c : Clock) (r : ℚ)
    (h : s.isActive = false) :
    s.readValue c r =
      (Reading.plain none (some TemperatureSensor.unit) c.iso TemperatureSensor.type "inactive",
        s) := by
  simp [TemperatureSensor.readValue, h]

theorem humidity_readValue_inactive (s : HumiditySensor) (c : Clock) (r : ℚ)
    (h : s.isActive = false) :
    s.readValue c r =
      (Reading.plain none (some HumiditySensor.unit) c.iso HumiditySensor.type "inactive", s) := by
  simp [HumiditySensor.readValue, h]

theorem light_readValue_inactive (s : LightSensor) (c : Clock) (r : ℚ)
    (h : s.isActive = false) :
    s.readValue c r =
      (Reading.plain none (some LightSensor.unit) c.iso LightSensor.type "inactive", s) := by
  simp [LightSensor.readValue, h]

theorem motion_readValue_inactive (s : MotionSensor) (c : Clock) (r : ℚ)
    (h : s.isActive = false) :
    s.readValue c r =
      (Reading.plain (some 0) (some MotionSensor.unit) c.iso MotionSensor.type "inactive", s) := by
  simp [MotionSensor.readValue, h]

theorem pressure_readValue_inactive (s : PressureSensor) (c : Clock) (r : ℚ)
    (h : s.isActive = false) :
    s.readValue c r =
      (Reading.plain none (some PressureSensor.unit) c.iso PressureSensor.type "inactive", s) := by
  simp [PressureSensor.readValue, h]

theorem airquality_readValue_inactive (s : AirQualitySensor) (c : Clock) (r1 r2 r3 : ℚ)
    (h : s.isActive = false) :
    s.readValue c r1 r2 r3 =
      (Reading.plain none (some AirQualitySensor.unit) c.iso AirQualitySensor.type "inactive",
        s) := by
  simp [AirQualitySensor.readValue, h]

theorem sound_readValue_inactive (s : SoundSensor) (c : Clock) (r1 r2 r3 : ℚ)
    (h : s.isActive = false) :
    s.readValue c r1 r2 r3 =
      (Reading.plain none (some SoundSensor.unit) c.iso SoundSensor.type "inactive", s) := by
  simp [SoundSensor.readValue, h]

/-- C6, counterexample. The motion sensor, once toggled off, returns a reading whose
value is the number 0, not `null`. -/
theorem motion_inactive_value_is_zero :
    MotionSensor.default.toggle.isActive = false ∧
    (MotionSensor.default.toggle.readValue ⟨"", 0, 12⟩ (1 / 2)).1.value = some 0 ∧
    (MotionSensor.default.toggle.readValue ⟨"", 0, 12⟩ (1 / 2)).1.value ≠ none := by
  have h : MotionSensor.default.toggle.isActive = false := rfl
  rw [motion_readValue_inactive _ _ _ h]
  exact ⟨h, rfl, by simp [Reading.plain]⟩

/-- C6, amended. On an inactive sensor `readValue` returns a reading with status
`inactive` whose value is `null` for the temperature, humidity, light, pressure,
air-quality and sound sensors, and is the number 0 for the motion sensor. -/
theorem inactive_readValue_reading :
    (∀ (s : TemperatureSensor) c r, s.isActive = false →
      (s.readValue c r).1.value = none ∧ (s.readValue c r).1.status = "inactive") ∧
    (∀ (s : HumiditySensor) c r, s.isActive = false →
      (s.readValue c r).1.value = none ∧ (s.readValue c r).1.status = "inactive") ∧
    (∀ (s : LightSensor) c r, s.isActive = false →
      (s.readValue c r).1.value = none ∧ (s.readValue c r).1.status = "inactive") ∧
    (∀ (s : PressureSensor) c r, s.isActive = false →
      (s.readValue c r).1.value = none ∧ (s.readValue c r).1.status = "inactive") ∧
    (∀ (s : AirQualitySensor) c r1 r2 r3, s.isActive = false →
      (s.readValue c r1 r2 r3).1.value = none ∧
        (s.readValue c r1 r2 r3).1.status = "inactive") ∧
    (∀ (s : SoundSensor) c r1 r2 r3, s.isActive = false →
      (s.readValue c r1 r2 r3).1.value = none ∧
        (s.readValue c r1 r2 r3).1.status = "inactive") ∧
    (∀ (s : MotionSensor) c r, s.isActive = false →
      (s.readValue c r).1.value = some 0 ∧ (s.readValue c r).1.status = "inactive") := by
  refine ⟨?_, ?_, ?_, ?_, ?_, ?_, ?_⟩
  · intro s c r h; rw [temperature_readValue_inactive s c r h]; exact ⟨rfl, rfl⟩
  · intro s c r h; rw [humidity_readValue_inactive s c r h]; exact ⟨rfl, rfl⟩
  · intro s c r h; rw [light_readValue_inactive s c r h]; exact ⟨rfl, rfl⟩
  · intro s c r h; rw [pressure_readValue_inactive s c r h]; exact ⟨rfl, rfl⟩
  · intro s c r1 r2 r3 h
    rw [airquality_readValue_inactive s c r1 r2 r3 h]; exact ⟨rfl, rfl⟩
  · intro s c r1 r2 r3 h
    rw [sound_readValue_inactive s c r1 r2 r3 h]; exact ⟨rfl, rfl⟩
  · intro s c r h; rw [motion_readValue_inactive s c r h]; exact ⟨rfl, rfl⟩

theorem inactive_readValue_reading_witness :
    SoundSensor.default.toggle.isActive = false ∧
    (SoundSensor.default.toggle.readValue ⟨"", 0, 12⟩ (1 / 2) (1 / 2) (1 / 2)).1.value = none ∧
    (SoundSensor.default.toggle.readValue ⟨"", 0, 12⟩ (1 / 2) (1 / 2) (1 / 2)).1.status =
      "inactive" :=
  ⟨rfl, inactive_readValue_reading.2.2.2.2.2.1 SoundSensor.default.toggle _ _ _ _ rfl⟩

/-- C7. On an inactive sensor `readValue` returns the sensor object unchanged, for each
of the seven sensors; hence, from an active sensor, `toggle`, any number of `readValue`
calls and `toggle` again give back exactly the original object. -/
theorem inactive_readValue_frame :
    (∀ (s : TemperatureSensor) (inputs : List (Clock × ℚ)),
      (s.isActive = false → ∀ c r, (s.readValue c r).2 = s) ∧
      (s.isActive = true →
        (readAll (fun s i => TemperatureSensor.readValue s i.1 i.2) s.toggle inputs).toggle = s)) ∧
    (∀ (s : HumiditySensor) (inputs : List (Clock × ℚ)),
      (s.isActive = false → ∀ c r, (s.readValue c r).2 = s) ∧
      (s.isActive = true →
        (readAll (fun s i => HumiditySensor.readValue s i.1 i.2) s.toggle inputs).toggle = s)) ∧
    (∀ (s : LightSensor) (inputs : List (Clock × ℚ)),
      (s.isActive = false → ∀ c r, (s.readValue c r).2 = s) ∧
      (s.isActive = true →
        (readAll (fun s i => LightSensor.readValue s i.1 i.2) s.toggle inputs).toggle = s)) ∧
    (∀ (s : MotionSensor) (inputs : List (Clock × ℚ)),
      (s.isActive = false → ∀ c r, (s.readValue c r).2 = s) ∧
      (s.isActive = true →
        (readAll (fun s i => MotionSensor.readValue s i.1 i.2) s.toggle inputs).toggle = s)) ∧
    (∀ (s : PressureSensor) (inputs : List (Clock × ℚ)),
      (s.isActive = false → ∀ c r, (s.readValue c r).2 = s) ∧
      (s.isActive = true →
        (readAll (fun s i => PressureSensor.readValue s i.1 i.2) s.toggle inputs).toggle = s)) ∧
    (∀ (s : AirQualitySensor) (inputs : List (Clock × ℚ × ℚ × ℚ)),
      (s.isActive = false → ∀ c r1 r2 r3, (s.readValue c r1 r2 r3).2 = s) ∧
      (s.isActive = true →
        (readAll (fun s i => AirQualitySensor.readValue s i.1 i.2.1 i.2.2.1 i.2.2.2)
          s.toggle inputs).toggle = s)) ∧
    (∀ (s : SoundSensor) (inputs : List (Clock × ℚ × ℚ × ℚ)),
      (s.isActive = false → ∀ c r1 r2 r3, (s.readValue c r1 r2 r3).2 = s) ∧
      (s.isActive = true →
        (readAll (fun s i => SoundSensor.readValue s i.1 i.2.1 i.2.2.1 i.2.2.2)
          s.toggle inputs).toggle = s)) := by
  refine ⟨?_, ?_, ?_, ?_, ?_, ?_, ?_⟩
  · intro s inputs
    refine ⟨fun h c r => by rw [temperature_readValue_inactive s c r h], fun h => ?_⟩
    have ht : s.toggle.isActive = false := by simp [TemperatureSensor.toggle, h]
    rw [readAll_fixed _ _ (fun i => by rw [temperature_readValue_inactive _ _ _ ht])]
    cases s; simp_all [TemperatureSensor.toggle]
  · intro s inputs
    refine ⟨fun h c r => by rw [humidity_readValue_inactive s c r h], fun h => ?_⟩
    have ht : s.toggle.isActive = false := by simp [HumiditySensor.toggle, h]
    rw [readAll_fixed _ _ (fun i => by rw [humidity_readValue_inactive _ _ _ ht])]
    cases s; simp_all [HumiditySensor.toggle]
  · intro s inputs
    refine ⟨fun h c r => by rw [light_readValue_inactive s c r h], fun h => ?_⟩
    have ht : s.toggle.isActive = false := by simp [LightSensor.toggle, h]
    rw [readAll_fixed _ _ (fun i => by rw [light_readValue_inactive _ _ _ ht])]
    cases s; simp_all [LightSensor.toggle]
  · intro s inputs
    refine ⟨fun h c r => by rw [motion_readValue_inactive s c r h], fun h => ?_⟩
    have ht : s.toggle.isActive = false := by simp [MotionSensor.toggle, h]
    rw [readAll_fixed _ _ (fun i => by rw [motion_readValue_inactive _ _ _ ht])]
    cases s; simp_all [MotionSensor.toggle]
  · intro s inputs
    refine ⟨fun h c r => by rw [pressure_readValue_inactive s c r h], fun h => ?_⟩
    have ht : s.toggle.isActive = false := by simp [PressureSensor.toggle, h]
    rw [readAll_fixed _ _ (fun i => by rw [pressure_readValue_inactive _ _ _ ht])]
    cases s; simp_all [PressureSensor.toggle]
  · intro s inputs
    refine ⟨fun h c r1 r2 r3 => by rw [airquality_readValue_inactive s c r1 r2 r3 h],
      fun h => ?_⟩
    have ht : s.toggle.isActive = false := by simp [AirQualitySensor.toggle, h]
    rw [readAll_fixed _ _ (fun i => by rw [airquality_readValue_inactive _ _ _ _ _ ht])]
    cases s; simp_all [AirQualitySensor.toggle]
  · intro s inputs
    refine ⟨fun h c r1 r2 r3 => by rw [sound_readValue_inactive s c r1 r2 r3 h],
      fun h => ?_⟩
    have ht : s.toggle.isActive = false := by simp [SoundSensor.toggle, h]
    rw [readAll_fixed _ _ (fun i => by rw [sound_readValue_inactive _ _ _ _ _ ht])]
    cases s; simp_all [SoundSensor.toggle]

theorem inactive_readValue_frame_witness :
    MotionSensor.default.isActive = true ∧
    (readAll (fun s i => MotionSensor.readValue s i.1 i.2) MotionSensor.default.toggle
      [(⟨"", 0, 12⟩, 0), (⟨"", 2000, 12⟩, 1 / 2)]).toggle = MotionSensor.default :=
  ⟨rfl, (inactive_readValue_frame.2.2.2.1 MotionSensor.default _).2 rfl⟩

/-! ## toggle -/

/-- C8. For each of the seven sensors and every state, `toggle` negates `isActive` and
leaves every other field as it was; applied twice it gives back the same object. -/
theorem toggle_flips_only_isActive :
    (∀ s : TemperatureSensor,
      s.toggle = { s with isActive := !s.isActive } ∧ s.toggle.isActive = !s.isActive ∧
      s.toggle.baseTemp = s.baseTemp ∧ s.toggle.variance = s.variance ∧
      s.toggle.currentValue = s.currentValue ∧ s.toggle.toggle = s) ∧
    (∀ s : HumiditySensor,
      s.toggle = { s with isActive := !s.isActive } ∧ s.toggle.isActive = !s.isActive ∧
      s.toggle.baseHumidity = s.baseHumidity ∧ s.toggle.variance = s.variance ∧
      s.toggle.currentValue = s.currentValue ∧ s.toggle.toggle = s) ∧
    (∀ s : LightSensor,
      s.toggle = { s with isActive := !s.isActive } ∧ s.toggle.isActive = !s.isActive ∧
      s.toggle.baseLight = s.baseLight ∧ s.toggle.variance = s.variance ∧
      s.toggle.currentValue = s.currentValue ∧ s.toggle.toggle = s) ∧
    (∀ s : MotionSensor,
      s.toggle = { s with isActive := !s.isActive } ∧ s.toggle.isActive = !s.isActive ∧
      s.toggle.sensitivity = s.sensitivity ∧ s.toggle.lastMotion = s.lastMotion ∧
      s.toggle.motionStartTime = s.motionStartTime ∧ s.toggle.toggle = s) ∧
    (∀ s : PressureSensor,
      s.toggle = { s with isActive := !s.isActive } ∧ s.toggle.isActive = !s.isActive ∧
      s.toggle.currentValue = s.currentValue ∧ s.toggle.toggle = s) ∧
    (∀ s : AirQualitySensor,
      s.toggle = { s with isActive := !s.isActive } ∧ s.toggle.isActive = !s.isActive ∧
      s.toggle.currentAQI = s.currentAQI ∧ s.toggle.co2Level = s.co2Level ∧
      s.toggle.vocLevel = s.vocLevel ∧ s.toggle.toggle = s) ∧
    (∀ s : SoundSensor,
      s.toggle = { s with isActive := !s.isActive } ∧ s.toggle.isActive = !s.isActive ∧
      s.toggle.currentLevel = s.currentLevel ∧ s.toggle.peakLevel = s.peakLevel ∧
      s.toggle.averageLevel = s.averageLevel ∧
      s.toggle.calibrationOffset = s.calibrationOffset ∧
      s.toggle.sensitivity = s.sensitivity ∧ s.toggle.toggle = s) := by
  refine ⟨?_, ?_, ?_, ?_, ?_, ?_, ?_⟩
  · intro s; cases s; simp [TemperatureSensor.toggle]
  · intro s; cases s; simp [HumiditySensor.toggle]
  · intro s; cases s; simp [LightSensor.toggle]
  · intro s; cases s; simp [MotionSensor.toggle]
  · intro s; cases s; simp [PressureSensor.toggle]
  · intro s; cases s; simp [AirQualitySensor.toggle]
  · intro s; cases s; simp [SoundSensor.toggle]

/-! ## calibrate -/

theorem temperature_calibrate_num (s : TemperatureSensor) (v : ℚ) :
    s.calibrate (.num v) = if v ≠ 0 then { s with currentValue := v, baseTemp := v } else s := by
  by_cases h : v = 0 <;> simp [TemperatureSensor.calibrate, JSValue.truthy, JSValue.isNumber, h]

theorem humidity_calibrate_num (s : HumiditySensor) (v : ℚ) :
    s.calibrate (.num v) = if v ≠ 0 then { s with currentValue := max 0 (min 100 v) } else s := by
  by_cases h : v = 0 <;> simp [HumiditySensor.calibrate, JSValue.truthy, JSValue.isNumber, h]

theorem light_calibrate_num (s : LightSensor) (v : ℚ) :
    s.calibrate (.num v) = if v ≠ 0 ∧ 0 ≤ v then { s with currentValue := v } else s := by
  by_cases h : v = 0 <;> by_cases h2 : 0 ≤ v <;>
    simp [LightSensor.calibrate, JSValue.truthy, JSValue.isNumber, h, h2]

theorem motion_calibrate_num (s : MotionSensor) (v : ℚ) :
    s.calibrate (.num v) = if 0 < v ∧ v ≤ 1 then { s with sensitivity := v } else s := by
  by_cases h : 0 < v <;> by_cases h2 : v ≤ 1 <;>
    simp [MotionSensor.calibrate, JSValue.truthy, JSValue.isNumber, h, h2]
  intro h0
  rw [h0] at h
  exact absurd h (lt_irrefl 0)

theorem pressure_calibrate_num (s : PressureSensor) (v : ℚ) :
    s.calibrate (.num v) = if v ≠ 0 then { s with currentValue := v } else s := by
  by_cases h : v = 0 <;> simp [PressureSensor.calibrate, JSValue.truthy, JSValue.isNumber, h]

theorem sound_calibrate_num (s : SoundSensor) (v : ℚ) :
    s.calibrate (.num v) =
      if v ≠ 0 then { s with calibrationOffset := v - s.currentLevel }
      else { s with peakLevel := s.currentLevel, averageLevel := s.currentLevel } := by
  by_cases h : v = 0 <;> simp [SoundSensor.calibrate, JSValue.truthy, JSValue.isNumber, h]

theorem sound_calibrate_not_number (s : SoundSensor) (v : JSValue)
    (h : v.isNumber = false) :
    s.calibrate v = { s with peakLevel := s.currentLevel, averageLevel := s.currentLevel } := by
  cases v <;> simp_all [SoundSensor.calibrate, JSValue.isNumber]

/-- C3, failing input. The default pressure sensor holds 1013.25, inside its declared
range 980 to 1050; `calibrate(2000)` stores 2000 as given, outside that range. The
light sensor likewise stores `calibrate(5000)` as given, outside its range 0 to 1000. -/
theorem calibrate_stores_out_of_range_value :
    PressureSensor.default.inRange ∧
    (PressureSensor.default.calibrate (.num 2000)).currentValue = 2000 ∧
    ¬ (PressureSensor.default.calibrate (.num 2000)).inRange ∧
    LightSensor.default.inRange ∧
    (LightSensor.default.calibrate (.num 5000)).currentValue = 5000 ∧
    ¬ (LightSensor.default.calibrate (.num 5000)).inRange := by
  rw [pressure_calibrate_num, light_calibrate_num]
  norm_num [PressureSensor.inRange, LightSensor.inRange, PressureSensor.default,
    LightSensor.default, LightSensor.create, PressureSensor.minValue, PressureSensor.maxValue]

/-- The declared range is kept by every other state-changing operation: by `readValue`
and `toggle` of every sensor, and by `calibrate` of the temperature, humidity,
air-quality and sound sensors. -/
theorem declared_range_kept_elsewhere :
    (∀ (s : TemperatureSensor) c r v, s.inRange →
      (s.readValue c r).2.inRange ∧ s.toggle.inRange ∧ (s.calibrate v).inRange) ∧
    (∀ (s : HumiditySensor) c r v, s.inRange →
      (s.readValue c r).2.inRange ∧ s.toggle.inRange ∧ (s.calibrate v).inRange) ∧
    (∀ (s : LightSensor) c r, s.inRange → (s.readValue c r).2.inRange ∧ s.toggle.inRange) ∧
    (∀ (s : PressureSensor) c r, s.inRange →
      (s.readValue c r).2.inRange ∧ s.toggle.inRange) ∧
    (∀ (s : AirQualitySensor) c r1 r2 r3 v, s.inRange →
      (s.readValue c r1 r2 r3).2.inRange ∧ s.toggle.inRange ∧ (s.calibrate v).inRange) ∧
    (∀ (s : SoundSensor) c r1 r2 r3 v, s.inRange →
      (s.readValue c r1 r2 r3).2.inRange ∧ s.toggle.inRange ∧ (s.calibrate v).inRange) := by
  refine ⟨?_, ?_, ?_, ?_, ?_, ?_⟩
  · intro s c r v h
    have hw : 0 ≤ s.variance := by
      have h1 := h.1
      have h2 := h.2
      linarith
    refine ⟨?_, h, ?_⟩
    · cases ha : s.isActive
      · rw [temperature_readValue_inactive s c r ha]; exact h
      · obtain ⟨e1, e2, _, h1, h2, _⟩ := temperature_readValue_active s c r hw ha
        exact ⟨by rw [e1, e2]; exact h1, by rw [e1, e2]; exact h2⟩
    · cases v with
      | num q =>
        rw [temperature_calibrate_num]
        split
        · exact ⟨by simp only; linarith, by simp only; linarith⟩
        · exact h
      | _ => exact h
  · intro s c r v h
    refine ⟨?_, h, ?_⟩
    · cases ha : s.isActive
      · rw [humidity_readValue_inactive s c r ha]; exact h
      · simp only [HumiditySensor.readValue, ha, HumiditySensor.inRange]
        exact clamp_bounds 0 100 (by norm_num) _
    · cases v with
      | num q =>
        rw [humidity_calibrate_num]
        split
        · exact clamp_bounds 0 100 (by norm_num) _
        · exact h
      | _ => exact h
  · intro s c r h
    refine ⟨?_, h⟩
    cases ha : s.isActive
    · rw [light_readValue_inactive s c r ha]; exact h
    · simp only [LightSensor.readValue, ha, LightSensor.inRange]
      exact clamp_bounds 0 1000 (by norm_num) _
  · intro s c r h
    refine ⟨?_, h⟩
    cases ha : s.isActive
    · rw [pressure_readValue_inactive s c r ha]; exact h
    · simp only [PressureSensor.readValue, ha, PressureSensor.inRange]
      exact clamp_bounds _ _ (by norm_num [PressureSensor.minValue, PressureSensor.maxValue]) _
  · intro s c r1 r2 r3 v h
    refine ⟨?_, h, ?_⟩
    · cases ha : s.isActive
      · rw [airquality_readValue_inactive s c r1 r2 r3 ha]; exact h
      · simp only [AirQualitySensor.readValue, ha, AirQualitySensor.inRange]
        exact ⟨clamp_bounds 0 300 (by norm_num) _, clamp_bounds 350 2000 (by norm_num) _,
          clamp_bounds 0 5 (by norm_num) _⟩
    · norm_num [AirQualitySensor.calibrate, AirQualitySensor.inRange]
  · intro s c r1 r2 r3 v h
    refine ⟨?_, h, ?_⟩
    · cases ha : s.isActive
      · rw [sound_readValue_inactive s c r1 r2 r3 ha]; exact h
      · simp only [SoundSensor.readValue, ha, SoundSensor.inRange]
        exact clamp_bounds _ _ (by norm_num [SoundSensor.minLevel, SoundSensor.maxLevel]) _
    · cases v with
      | num q => rw [sound_calibrate_num]; split <;> exact h
      | _ => exact h

theorem declared_range_kept_elsewhere_witness :
    HumiditySensor.default.inRange ∧ (HumiditySensor.default.calibrate (.num 150)).inRange :=
  ⟨by norm_num [HumiditySensor.inRange, HumiditySensor.default, HumiditySensor.create],
    (declared_range_kept_elsewhere.2.1 HumiditySensor.default ⟨"", 0, 12⟩ 0 (.num 150)
      (by norm_num [HumiditySensor.inRange, HumiditySensor.default,
        HumiditySensor.create])).2.2⟩

/-- C9, counterexample. `calibrate(150)` on the default humidity sensor changes the
stored value from 60 to 100, and `calibrate("loud")` on a sound sensor changes its
peak and average. -/
theorem calibrate_invalid_input_changes_state :
    HumiditySensor.default.currentValue = 60 ∧
    (HumiditySensor.default.calibrate (.num 150)).currentValue = 100 ∧
    HumiditySensor.default.calibrate (.num 150) ≠ HumiditySensor.default ∧
    SoundSensor.calibrate ⟨40, true, 50, 45, 0, 1⟩ (.str "loud") = ⟨40, true, 40, 40, 0, 1⟩ ∧
    SoundSensor.calibrate ⟨40, true, 50, 45, 0, 1⟩ (.str "loud") ≠ ⟨40, true, 50, 45, 0, 1⟩ := by
  have h1 : (HumiditySensor.default.calibrate (.num 150)).currentValue = 100 := by
    rw [humidity_calibrate_num]
    norm_num [HumiditySensor.default, HumiditySensor.create]
  have h2 : HumiditySensor.default.currentValue = 60 := rfl
  have h3 : SoundSensor.calibrate ⟨40, true, 50, 45, 0, 1⟩ (.str "loud") =
      ⟨40, true, 40, 40, 0, 1⟩ := by
    exact sound_calibrate_not_number _ (.str "loud") rfl
  refine ⟨h2, h1, ?_, h3, ?_⟩
  · intro h
    rw [h, h2] at h1
    norm_num at h1
  · rw [h3]
    intro h
    have h4 := congrArg SoundSensor.peakLevel h
    norm_num at h4

/-- C9, amended. `calibrate` is a total function (it never fails). A value that is not
a number leaves the whole state unchanged for the temperature, humidity, light, motion
and pressure sensors, and so does a negative number for the light sensor and a number
outside (0, 1] for the motion sensor. The humidity sensor does not ignore a number
outside [0, 100]: it stores the nearer bound. The sound sensor does not ignore a value
that is not a number: it sets peak and average to the current level and changes
nothing else. -/
theorem calibrate_invalid_input :
    (∀ (s : TemperatureSensor) (v : JSValue), v.isNumber = false → s.calibrate v = s) ∧
    (∀ (s : HumiditySensor) (v : JSValue), v.isNumber = false → s.calibrate v = s) ∧
    (∀ (s : LightSensor) (v : JSValue), v.isNumber = false → s.calibrate v = s) ∧
    (∀ (s : MotionSensor) (v : JSValue), v.isNumber = false → s.calibrate v = s) ∧
    (∀ (s : PressureSensor) (v : JSValue), v.isNumber = false → s.calibrate v = s) ∧
    (∀ (s : LightSensor) (q : ℚ), q < 0 → s.calibrate (.num q) = s) ∧
    (∀ (s : MotionSensor) (q : ℚ), ¬ (0 < q ∧ q ≤ 1) → s.calibrate (.num q) = s) ∧
    (∀ (s : HumiditySensor) (q : ℚ),
      (q < 0 → s.calibrate (.num q) = { s with currentValue := 0 }) ∧
      (100 < q → s.calibrate (.num q) = { s with currentValue := 100 })) ∧
    (∀ (s : SoundSensor) (v : JSValue), v.isNumber = false →
      s.calibrate v = { s with peakLevel := s.currentLevel, averageLevel := s.currentLevel }) := by
  refine ⟨?_, ?_, ?_, ?_, ?_, ?_, ?_, ?_, ?_⟩
  · intro s v h; cases v <;> simp_all [TemperatureSensor.calibrate, JSValue.isNumber]
  · intro s v h; cases v <;> simp_all [HumiditySensor.calibrate, JSValue.isNumber]
  · intro s v h; cases v <;> simp_all [LightSensor.calibrate, JSValue.isNumber]
  · intro s v h; cases v <;> simp_all [MotionSensor.calibrate, JSValue.isNumber]
  · intro s v h; cases v <;> simp_all [PressureSensor.calibrate, JSValue.isNumber]
  · intro s q h
    rw [light_calibrate_num, if_neg (fun h2 => absurd h2.2 (not_le.mpr h))]
  · intro s q h
    rw [motion_calibrate_num, if_neg h]
  · intro s q
    constructor
    · intro h
      rw [humidity_calibrate_num, if_pos (ne_of_lt h),
        min_eq_right (by linarith), max_eq_left h.le]
    · intro h
      rw [humidity_calibrate_num, if_pos (by intro h0; rw [h0] at h; norm_num at h),
        min_eq_left h.le, max_eq_right (by norm_num)]
  · intro s v h; exact sound_calibrate_not_number s v h

theorem calibrate_invalid_input_witness :
    (JSValue.str "hot").isNumber = false ∧
    TemperatureSensor.default.calibrate (.str "hot") = TemperatureSensor.default :=
  ⟨rfl, calibrate_invalid_input.1 TemperatureSensor.default (.str "hot") rfl⟩

/-- C10, failing input. `calibrate(0)` leaves the default temperature sensor as it
was, with baseline and current value 25: the number 0 is falsy and does not pass the
guard. -/
theorem temperature_calibrate_zero_ignored :
    TemperatureSensor.default.calibrate (.num 0) = TemperatureSensor.default ∧
    (TemperatureSensor.default.calibrate (.num 0)).baseTemp = 25 ∧
    (TemperatureSensor.default.calibrate (.num 0)).currentValue = 25 := by
  rw [temperature_calibrate_num]
  exact ⟨by simp, rfl, rfl⟩

/-- For every number `v` other than 0, `calibrate(v)` sets the baseline and the current
value to `v` and leaves the variance and the active flag unchanged. -/
theorem temperature_calibrate_nonzero (s : TemperatureSensor) (v : ℚ) (hv : v ≠ 0) :
    (s.calibrate (.num v)).baseTemp = v ∧ (s.calibrate (.num v)).currentValue = v ∧
    (s.calibrate (.num v)).variance = s.variance ∧
    (s.calibrate (.num v)).isActive = s.isActive := by
  rw [temperature_calibrate_num, if_pos hv]
  exact ⟨rfl, rfl, rfl, rfl⟩

theorem temperature_calibrate_nonzero_witness :
    (22 : ℚ) ≠ 0 ∧ (TemperatureSensor.default.calibrate (.num 22)).baseTemp = 22 :=
  ⟨by norm_num, (temperature_calibrate_nonzero TemperatureSensor.default 22 (by norm_num)).1⟩

/-! ## The history buffers -/

theorem storeLast100_drop (l : List JSValue) (x : JSValue) :
    storeLast100 (l.drop (l.length - 100)) x = (l ++ [x]).drop ((l ++ [x]).length - 100) := by
  unfold storeLast100
  by_cases h : l.length < 100
  · have h1 : l.length - 100 = 0 := by omega
    have h2 : (l ++ [x]).length - 100 = 0 := by simp; omega
    rw [h1, h2]
    simp only [List.drop_zero]
    rw [if_neg (by simp; omega)]
  · have h2 : (l ++ [x]).length - 100 = (l.length - 100) + 1 := by simp; omega
    rw [h2, if_pos (by simp; omega)]
    rw [← List.drop_one, List.drop_append_of_le_length (by simp; omega),
      List.drop_append_of_le_length (by omega), List.drop_drop]

theorem generateSensorData_history (iso : String) (reads : SensorType → Except String Reading)
    (h : SensorData) (key : HistoryKey) :
    (generateSensorData iso reads h).2 key =
      storeLast100 (h key) ((generateSensorData iso reads h).1.get key) := by
  rcases key with t | _
  · cases t <;> simp [generateSensorData, sensorDataKeys, Function.update]
  · simp [generateSensorData, sensorDataKeys, Function.update]

theorem runCycles_snoc (cycles : List Cycle) (c : Cycle) (h : SensorData) :
    runCycles (cycles ++ [c]) h =
      ((runCycles cycles h).1 ++ [(generateSensorData c.iso c.reads (runCycles cycles h).2).1],
        (generateSensorData c.iso c.reads (runCycles cycles h).2).2) := by
  simp [runCycles, List.foldl_append]

theorem runCycles_buffers (cycles : List Cycle) :
    (runCycles cycles sensorData).1.length = cycles.length ∧
    ∀ key, (runCycles cycles sensorData).2 key =
      ((runCycles cycles sensorData).1.map (fun data => data.get key)).drop
        (cycles.length - 100) := by
  induction cycles using List.reverseRecOn with
  | nil => exact ⟨rfl, fun key => rfl⟩
  | append_singleton cycles c ih =>
    obtain ⟨hlen, hbuf⟩ := ih
    rw [runCycles_snoc]
    refine ⟨by simp [hlen], fun key => ?_⟩
    simp only [generateSensorData_history, hbuf key, List.map_append, List.map_cons,
      List.map_nil, List.length_append, List.length_singleton]
    have hl : ((runCycles cycles sensorData).1.map (fun data => data.get key)).length =
        cycles.length := by simp [hlen]
    have := storeLast100_drop ((runCycles cycles sensorData).1.map (fun data => data.get key))
      ((generateSensorData c.iso c.reads (runCycles cycles sensorData).2).1.get key)
    rw [hl] at this
    rw [this]
    simp [hl]

/-- C4. From the empty history, after `n` calls of `generateSensorData` each of the
eight buffers is the list of the values the `n` returned snapshots carried under its
key, in call order, cut down to its last `min n 100` entries; so each buffer has length
`min n 100`, at most 100, all eight lengths agree, and after 150 calls a buffer holds
the values of calls 51 to 150. -/
theorem history_holds_last_100 (cycles : List Cycle) (key : HistoryKey) :
    ((runCycles cycles sensorData).1.map (fun data => data.get key)).length = cycles.length ∧
    (runCycles cycles sensorData).2 key =
      ((runCycles cycles sensorData).1.map (fun data => data.get key)).drop
        (cycles.length - min cycles.length 100) ∧
    ((runCycles cycles sensorData).2 key).length = min cycles.length 100 ∧
    ((runCycles cycles sensorData).2 key).length ≤ 100 ∧
    (∀ other : HistoryKey, ((runCycles cycles sensorData).2 other).length =
      ((runCycles cycles sensorData).2 key).length) ∧
    (cycles.length = 150 → (runCycles cycles sensorData).2 key =
      ((runCycles cycles sensorData).1.map (fun data => data.get key)).drop 50) := by
  obtain ⟨hlen, hbuf⟩ := runCycles_buffers cycles
  have hsub : cycles.length - min cycles.length 100 = cycles.length - 100 := by omega
  have hl : ∀ k : HistoryKey, ((runCycles cycles sensorData).2 k).length =
      min cycles.length 100 := by
    intro k
    rw [hbuf k, List.length_drop, List.length_map, hlen]
    omega
  refine ⟨by rw [List.length_map, hlen], by rw [hsub]; exact hbuf key, hl key, ?_, ?_, ?_⟩
  · rw [hl key]; omega
  · intro other; rw [hl other, hl key]
  · intro h150
    rw [hbuf key, h150]

theorem history_holds_last_100_witness :
    (List.replicate 150 (Cycle.mk "t" (fun _ => Except.error "fault"))).length = 150 ∧
    (runCycles (List.replicate 150 (Cycle.mk "t" (fun _ => Except.error "fault")))
        sensorData).2 .timestamp =
      ((runCycles (List.replicate 150 (Cycle.mk "t" (fun _ => Except.error "fault")))
        sensorData).1.map (fun data => data.get .timestamp)).drop 50 :=
  ⟨by simp, (history_holds_last_100 _ _).2.2.2.2.2 (by simp)⟩

/-! ## Failure isolation in one cycle -/

theorem recordReading_value (h : SensorData) (data : Snapshot) (t : SensorType)
    (outcome : Except String Reading) :
    (recordReading h data t outcome).value =
      Function.update data.value t
        (match outcome with
         | .ok reading => JSValue.ofOption reading.value
         | .error _ => JSValue.null) ∧
    (recordReading h data t outcome).timestamp = data.timestamp := by
  cases outcome with
  | error e => exact ⟨rfl, rfl⟩
  | ok reading =>
    simp only [recordReading]
    split <;> exact ⟨rfl, rfl⟩

theorem foldl_recordReading_value (h : SensorData) (reads : SensorType → Except String Reading)
    (l : List SensorType) (data : Snapshot) :
    (l.foldl (fun data t => recordReading h data t (reads t)) data).value =
      l.foldl (fun f t => Function.update f t
        (match reads t with
         | .ok reading => JSValue.ofOption reading.value
         | .error _ => JSValue.null)) data.value ∧
    (l.foldl (fun data t => recordReading h data t (reads t)) data).timestamp =
      data.timestamp := by
  induction l generalizing data with
  | nil => exact ⟨rfl, rfl⟩
  | cons t rest ih =>
    simp only [List.foldl_cons]
    obtain ⟨h1, h2⟩ := ih (recordReading h data t (reads t))
    rw [h1, h2, (recordReading_value h data t (reads t)).1,
      (recordReading_value h data t (reads t)).2]
    exact ⟨rfl, rfl⟩

theorem generateSensorData_value (iso : String) (reads : SensorType → Except String Reading)
    (h : SensorData) (t : SensorType) :
    (generateSensorData iso reads h).1.value t =
      match reads t with
      | .ok reading => JSValue.ofOption reading.value
      | .error _ => JSValue.null := by
  have := (foldl_recordReading_value h reads sensorEntries
    { timestamp := iso, value := fun _ => JSValue.undefined, info := fun _ => none }).1
  simp only [generateSensorData]
  rw [this]
  cases t <;> simp [sensorEntries, Function.update]

theorem storeLast100_getLast (l : List JSValue) (x : JSValue) :
    (storeLast100 l x).getLast? = some x := by
  simp only [storeLast100]
  split
  · rename_i hlen
    cases l with
    | nil => simp at hlen
    | cons a rest => simp
  · simp

/-- C5. Whatever subset of the seven `readValue` calls fails, `generateSensorData`
returns its snapshot (it is a total function): the snapshot records `null` for each
failing type and `reading.value` for each other type, a value that depends on that
sensor's own outcome only, carries the timestamp, and its entry is appended to each
of the eight buffers. -/
theorem failing_reads_are_isolated (iso : String) (reads : SensorType → Except String Reading)
    (h : SensorData) :
    (∀ t, (generateSensorData iso reads h).1.value t =
      match reads t with
      | .ok reading => JSValue.ofOption reading.value
      | .error _ => JSValue.null) ∧
    (∀ t (others : SensorType → Except String Reading),
      (generateSensorData iso (Function.update others t (reads t)) h).1.value t =
        (generateSensorData iso reads h).1.value t) ∧
    (generateSensorData iso reads h).1.timestamp = iso ∧
    (∀ key, (generateSensorData iso reads h).2 key =
      storeLast100 (h key) ((generateSensorData iso reads h).1.get key)) ∧
    (∀ key, ((generateSensorData iso reads h).2 key).getLast? =
      some ((generateSensorData iso reads h).1.get key)) := by
  refine ⟨generateSensorData_value iso reads h, ?_, ?_, generateSensorData_history iso reads h, ?_⟩
  · intro t others
    rw [generateSensorData_value, generateSensorData_value, Function.update_same]
  · exact (foldl_recordReading_value h reads sensorEntries
      { timestamp := iso, value := fun _ => JSValue.undefined, info := fun _ => none }).2
  · intro key
    rw [generateSensorData_history, storeLast100_getLast]

/-! ## calibrate, sensor by sensor -/

/-- C11, failing input. `calibrate(0)` leaves the default humidity sensor as it was,
with current value 60, although `clamp(0, 0, 100)` is 0: the number 0 is falsy and does
not pass the guard. -/
theorem humidity_calibrate_zero_ignored :
    HumiditySensor.default.calibrate (.num 0) = HumiditySensor.default ∧
    (HumiditySensor.default.calibrate (.num 0)).currentValue = 60 ∧
    max (0 : ℚ) (min 100 0) = 0 := by
  rw [humidity_calibrate_num]
  refine ⟨by simp, rfl, by norm_num⟩

/-- For every number `v` other than 0, the humidity `calibrate(v)` sets the current
value to `max(0, min(100, v))` and leaves baseline, variance and active flag unchanged. -/
theorem humidity_calibrate_nonzero (s : HumiditySensor) (v : ℚ) (hv : v ≠ 0) :
    (s.calibrate (.num v)).currentValue = max 0 (min 100 v) ∧
    (s.calibrate (.num v)).baseHumidity = s.baseHumidity ∧
    (s.calibrate (.num v)).variance = s.variance ∧
    (s.calibrate (.num v)).isActive = s.isActive := by
  rw [humidity_calibrate_num, if_pos hv]
  exact ⟨rfl, rfl, rfl, rfl⟩

theorem humidity_calibrate_nonzero_witness :
    (150 : ℚ) ≠ 0 ∧
    (HumiditySensor.default.calibrate (.num 150)).currentValue = max 0 (min 100 150) :=
  ⟨by norm_num, (humidity_calibrate_nonzero HumiditySensor.default 150 (by norm_num)).1⟩

/-- C12, failing input. `calibrate(0)` leaves the default light sensor as it was, with
current value 500: 0 passes the test `referenceLux >= 0` but is falsy and fails the
truthiness test before it. -/
theorem light_calibrate_zero_ignored :
    LightSensor.default.calibrate (.num 0) = LightSensor.default ∧
    (LightSensor.default.calibrate (.num 0)).currentValue = 500 ∧
    (0 : ℚ) ≥ 0 := by
  rw [light_calibrate_num]
  refine ⟨by simp, rfl, le_refl 0⟩

/-- For every number `v > 0` the light `calibrate(v)` sets the current value to exactly
`v` and leaves every other field unchanged; for every `v < 0` the state is unchanged. -/
theorem light_calibrate_positive_or_negative (s : LightSensor) (v : ℚ) :
    (0 < v → s.calibrate (.num v) = { s with currentValue := v }) ∧
    (v < 0 → s.calibrate (.num v) = s) := by
  constructor
  · intro h
    rw [light_calibrate_num, if_pos ⟨ne_of_gt h, h.le⟩]
  · intro h
    rw [light_calibrate_num, if_neg (fun h2 => absurd h2.2 (not_le.mpr h))]

theorem light_calibrate_positive_or_negative_witness :
    (0 : ℚ) < 750 ∧
    LightSensor.default.calibrate (.num 750) =
      { LightSensor.default with currentValue := 750 } :=
  ⟨by norm_num,
    (light_calibrate_positive_or_negative LightSensor.default 750).1 (by norm_num)⟩

/-- C13. For the motion sensor and every number `s`, `calibrate(s)` makes the
sensitivity `s` when `0 < s ≤ 1` and leaves it as it was for every other `s`; in both
cases `lastMotion`, `motionStartTime` and the active flag are unchanged. -/
theorem motion_calibrate_sensitivity (m : MotionSensor) (s : ℚ) :
    (m.calibrate (.num s)).sensitivity = (if 0 < s ∧ s ≤ 1 then s else m.sensitivity) ∧
    (m.calibrate (.num s)).lastMotion = m.lastMotion ∧
    (m.calibrate (.num s)).motionStartTime = m.motionStartTime ∧
    (m.calibrate (.num s)).isActive = m.isActive := by
  rw [motion_calibrate_num]
  split <;> exact ⟨rfl, rfl, rfl, rfl⟩

/-- C14. For the air-quality sensor, every prior state and whatever argument is passed,
`calibrate()` sets `currentAQI` to 25, `co2Level` to 400 and `vocLevel` to 0.1 and
leaves the active flag unchanged; calibrating twice is the same as calibrating once. -/
theorem airquality_calibrate_resets (s : AirQualitySensor) (v w : JSValue) :
    (s.calibrate v).currentAQI = 25 ∧ (s.calibrate v).co2Level = 400 ∧
    (s.calibrate v).vocLevel = 1 / 10 ∧ (s.calibrate v).isActive = s.isActive ∧
    (s.calibrate v).calibrate w = s.calibrate v := by
  exact ⟨rfl, rfl, rfl, rfl, rfl⟩

/-- C15, failing input. On the default sound sensor (level 35, offset 0) `calibrate(0)`
leaves the offset 0, although `0 - 35 = -35`; on a sensor with level 40, peak 50 and
average 45 it also resets peak and average to 40: the number 0 is falsy and is handled
as an omitted argument. -/
theorem sound_calibrate_zero_resets_peak :
    (SoundSensor.default.calibrate (.num 0)).calibrationOffset = 0 ∧
    (0 : ℚ) - SoundSensor.default.currentLevel = -35 ∧
    SoundSensor.calibrate ⟨40, true, 50, 45, 0, 1⟩ (.num 0) = ⟨40, true, 40, 40, 0, 1⟩ := by
  rw [sound_calibrate_num, sound_calibrate_num]
  refine ⟨by simp [SoundSensor.default], by norm_num [SoundSensor.default], by simp⟩

/-- For every number `r` other than 0, the sound `calibrate(r)` sets the calibration
offset to `r` minus the current level and leaves every other field unchanged. -/
theorem sound_calibrate_nonzero (s : SoundSensor) (r : ℚ) (hr : r ≠ 0) :
    s.calibrate (.num r) = { s with calibrationOffset := r - s.currentLevel } := by
  rw [sound_calibrate_num, if_pos hr]

theorem sound_calibrate_nonzero_witness :
    (50 : ℚ) ≠ 0 ∧
    SoundSensor.default.calibrate (.num 50) =
      { SoundSensor.default with calibrationOffset := 50 - SoundSensor.default.currentLevel } :=
  ⟨by norm_num, sound_calibrate_nonzero SoundSensor.default 50 (by norm_num)⟩

/-- C16. For the sound sensor and every state, `calibrate()` with the argument omitted
sets both `peakLevel` and `averageLevel` to the current level and leaves the current
level, `calibrationOffset`, `sensitivity` and the active flag unchanged. -/
theorem sound_calibrate_omitted (s : SoundSensor) :
    (s.calibrate .undefined).peakLevel = s.currentLevel ∧
    (s.calibrate .undefined).averageLevel = s.currentLevel ∧
    (s.calibrate .undefined).currentLevel = s.currentLevel ∧
    (s.calibrate .undefined).calibrationOffset = s.calibrationOffset ∧
    (s.calibrate .undefined).sensitivity = s.sensitivity ∧
    (s.calibrate .undefined).isActive = s.isActive := by
  rw [sound_calibrate_not_number s .undefined rfl]
  exact ⟨rfl, rfl, rfl, rfl, rfl, rfl⟩

/-! ## The light sensor's update -/

theorem timeOfDayMultiplier_eq_spec (h : Nat) :
    LightSensor.timeOfDayMultiplier h = lightMultiplierSpec h := by
  unfold LightSensor.timeOfDayMultiplier lightMultiplierSpec
  by_cases h1 : h < 6 ∨ h > 20
  · rw [if_pos h1, if_pos h1]
  · rw [if_neg h1, if_neg h1]
    by_cases h2 : h < 8 ∨ h > 18
    · rw [if_pos h2, if_pos (by omega)]
    · rw [if_neg h2, if_neg (by omega)]

/-- C20. For the active light sensor, every prior value `c`, every draw `r` and every
hour `h`, `readValue` stores `clamp((c + (r - 0.5) * 100 * 0.2) * m(h), 0, 1000)` as the
new current value, with `m(h)` as the specification words it: the multiplier is applied
to the walked value before the clamp. The other fields are unchanged. -/
theorem light_readValue_update (s : LightSensor) (c : Clock) (r : ℚ)
    (h : s.isActive = true) :
    (s.readValue c r).2.currentValue =
      clamp ((s.currentValue + (r - 1 / 2) * 100 * (1 / 5)) * lightMultiplierSpec c.hour)
        0 1000 ∧
    (s.readValue c r).2.baseLight = s.baseLight ∧
    (s.readValue c r).2.variance = s.variance ∧
    (s.readValue c r).2.isActive = s.isActive := by
  simp only [LightSensor.readValue, h, clamp, timeOfDayMultiplier_eq_spec]
  exact ⟨rfl, rfl, rfl, rfl⟩

theorem light_readValue_update_witness :
    LightSensor.default.isActive = true ∧
    (LightSensor.default.readValue ⟨"", 0, 7⟩ (3 / 4)).2.currentValue =
      clamp ((LightSensor.default.currentValue + (3 / 4 - 1 / 2) * 100 * (1 / 5)) *
        lightMultiplierSpec 7) 0 1000 :=
  ⟨rfl, (light_readValue_update LightSensor.default ⟨"", 0, 7⟩ (3 / 4) rfl).1⟩

/-! ## The `_info` field of a snapshot -/

theorem history_length_after (cycles : List Cycle) (key : HistoryKey) :
    ((runCycles cycles sensorData).2 key).length = min cycles.length 100 := by
  obtain ⟨hlen, hbuf⟩ := runCycles_buffers cycles
  rw [hbuf key, List.length_drop, List.length_map, hlen]
  omega

theorem recordReading_info (h : SensorData) (data : Snapshot) (t : SensorType)
    (outcome : Except String Reading) :
    (recordReading h data t outcome).info =
      Function.update data.info t
        (match outcome with
         | .ok reading => if (h (.sensor t)).length = 0 then some reading else data.info t
         | .error _ => data.info t) := by
  cases outcome with
  | error e => simp [recordReading]
  | ok reading =>
    simp only [recordReading]
    split <;> simp

theorem foldl_recordReading_info (h : SensorData) (reads : SensorType → Except String Reading)
    (l : List SensorType) (data : Snapshot) :
    (l.foldl (fun data t => recordReading h data t (reads t)) data).info =
      l.foldl (fun f t => Function.update f t
        (match reads t with
         | .ok reading => if (h (.sensor t)).length = 0 then some reading else f t
         | .error _ => f t)) data.info := by
  induction l generalizing data with
  | nil => rfl
  | cons t rest ih =>
    simp only [List.foldl_cons]
    rw [ih (recordReading h data t (reads t)), recordReading_info]

theorem generateSensorData_info (iso : String) (reads : SensorType → Except String Reading)
    (h : SensorData) (t : SensorType) :
    (generateSensorData iso reads h).1.info t =
      if (h (.sensor t)).length = 0 then
        (match reads t with
         | .ok reading => some reading
         | .error _ => none)
      else none := by
  have := foldl_recordReading_info h reads sensorEntries
    { timestamp := iso, value := fun _ => JSValue.undefined, info := fun _ => none }
  simp only [generateSensorData]
  rw [this]
  cases t <;> simp [sensorEntries, Function.update] <;> split <;> simp

/-- What the test `sensorData[sensorType].length === 0` does in every run of cycles from
startup, whichever reads succeed or fail: the snapshot of the first cycle carries the
`_info` field of a type, equal to the full reading, when that cycle's read of the type
succeeded, and no later snapshot carries it. So the first successful reading of a type
gets the field exactly when it is obtained in the first cycle. -/
theorem snapshot_info_first_cycle_only (first : Cycle) (rest : List Cycle) (t : SensorType) :
    (runCycles (first :: rest) sensorData).1.map (fun data => data.info t) =
      (match first.reads t with
       | .ok reading => some reading
       | .error _ => none) :: List.replicate rest.length none := by
  induction rest using List.reverseRecOn with
  | nil =>
    simp [runCycles, generateSensorData_info, sensorData]
  | append_singleton rest c ih =>
    rw [← List.cons_append, runCycles_snoc, List.map_append, ih]
    have hlen := (history_length_after (first :: rest) (.sensor t))
    simp only [List.map_cons, List.map_nil, generateSensorData_info, List.length_append,
      List.length_singleton, List.replicate_succ']
    rw [if_neg (by rw [hlen]; simp)]
    simp

/-- C17, failing input. Two cycles from startup: the temperature read fails in the first
and succeeds in the second. The second snapshot records the value 25 of that reading, the
first successful one of its type, and carries no `temperature_info` field: the `catch`
branch stored `null`, which was pushed, so the buffer is no longer empty. -/
theorem info_absent_after_failed_first_read :
    (runCycles
      [⟨"t1", fun _ => .error "fault"⟩,
       ⟨"t2", fun _ => .ok (Reading.plain (some 25) (some TemperatureSensor.unit) "t2"
         TemperatureSensor.type "active")⟩]
      sensorData).1.map (fun data => (data.value .temperature, data.info .temperature)) =
      [(JSValue.null, none), (JSValue.num 25, none)] := by
  simp [runCycles, generateSensorData_info, generateSensorData_value,
    generateSensorData_history, sensorData, storeLast100, JSValue.ofOption, Reading.plain]

/-! ## The history route -/

/-- C18, failing input. The name `timestamp` is not a registered sensor type, yet the
query answers with status 200 and the timestamp buffer as `data`; the inherited name
`constructor` is answered with status 200 as well. -/
theorem history_query_timestamp_found (sensorData : SensorData) :
    SensorType.ofName? "timestamp" = none ∧
    getSensorsByType sensorData "timestamp" =
      .json "timestamp" (.own (sensorData .timestamp)) (sensorData .timestamp) ∧
    SensorType.ofName? "constructor" = none ∧
    getSensorsByType sensorData "constructor" =
      .json "constructor" .inherited (sensorData .timestamp) := by
  refine ⟨by decide, ?_, by decide, ?_⟩
  · have h : HistoryKey.ofName? "timestamp" = some .timestamp := by decide
    simp [getSensorsByType, lookupSensorData, h, Property.truthy]
  · have h : HistoryKey.ofName? "constructor" = none := by decide
    have h2 : "constructor" ∈ objectPrototypeNames := by decide
    simp [getSensorsByType, lookupSensorData, h, h2, Property.truthy]

/-- For each of the seven registered names the query returns that type's buffer with
the shared timestamp buffer; for every name that is neither a key of `sensorData` nor
a member of `Object.prototype`, such as `radiation`, it returns the not-found error. -/
theorem history_query_registered_or_unknown (sensorData : SensorData) (name : String) :
    (∀ t, SensorType.ofName? name = some t →
      getSensorsByType sensorData name =
        .json name (.own (sensorData (.sensor t))) (sensorData .timestamp)) ∧
    (SensorType.ofName? name = none → name ≠ "timestamp" → name ∉ objectPrototypeNames →
      getSensorsByType sensorData name = .notFound "Sensor type not found") ∧
    getSensorsByType sensorData "radiation" = .notFound "Sensor type not found" := by
  refine ⟨?_, ?_, ?_⟩
  · intro t ht
    have hne : name ≠ "timestamp" := by
      intro h
      have h0 : SensorType.ofName? "timestamp" = none := by decide
      rw [h, h0] at ht
      cases ht
    simp [getSensorsByType, lookupSensorData, HistoryKey.ofName?, hne, ht, Property.truthy]
  · intro h1 h2 h3
    simp [getSensorsByType, lookupSensorData, HistoryKey.ofName?, h1, h2, h3, Property.truthy]
  · have h : HistoryKey.ofName? "radiation" = none := by decide
    have h2 : "radiation" ∉ objectPrototypeNames := by decide
    simp [getSensorsByType, lookupSensorData, h, h2, Property.truthy]

theorem history_query_registered_or_unknown_witness :
    SensorType.ofName? "light" = some .light ∧
    getSensorsByType sensorData "light" =
      .json "light" (.own (sensorData (.sensor .light))) (sensorData .timestamp) :=
  ⟨by decide, (history_query_registered_or_unknown sensorData "light").1 _ (by decide)⟩

/-! ## The control handler -/

/-- C19, failing input. The command `{ type: 'sensor', device: 'constructor',
action: 'toggle' }` names no registered sensor, but `sensors['constructor']` is the
inherited, truthy `Object` function: the handler calls `toggle` on it, which throws, and
the statement that emits the acknowledgment is not reached. -/
theorem controlDevice_inherited_name_throws (hub : Hub) (iso : String) :
    SensorType.ofName? "constructor" = none ∧
    controlDevice hub ⟨.str "sensor", "constructor", .str "toggle", .undefined⟩ iso =
      .error "TypeError: sensors[data.device].toggle is not a function" := by
  have h : lookupSensor "constructor" = .inherited := by decide
  refine ⟨by decide, ?_⟩
  simp [controlDevice, h, Property.truthy]

/-- Apart from a `toggle` or `calibrate` aimed at a member of `Object.prototype`, every
command is acknowledged with its target and the status `command_executed`; a command
whose target names no property of `sensors`, or whose action is neither `toggle` nor
`calibrate`, leaves sensors and history unchanged; a command aimed at a registered
sensor leaves the history unchanged. -/
theorem controlDevice_acknowledged (hub : Hub) (data : Command) (iso : String) :
    (lookupSensor data.device = .undefined →
      controlDevice hub data iso = .ok (hub, ⟨data.device, "command_executed", iso⟩)) ∧
    (data.action ≠ .str "toggle" → data.action ≠ .str "calibrate" →
      controlDevice hub data iso = .ok (hub, ⟨data.device, "command_executed", iso⟩)) ∧
    (data.type ≠ .str "sensor" →
      controlDevice hub data iso = .ok (hub, ⟨data.device, "command_executed", iso⟩)) ∧
    (∀ t, lookupSensor data.device = .own t →
      ∃ ss, controlDevice hub data iso =
        .ok (⟨ss, hub.sensorData⟩, ⟨data.device, "command_executed", iso⟩)) := by
  refine ⟨?_, ?_, ?_, ?_⟩
  · intro h
    simp [controlDevice, h, Property.truthy]
  · intro h1 h2
    simp [controlDevice, h1, h2]
  · intro h
    simp [controlDevice, h]
  · intro t ht
    by_cases h0 : data.type = .str "sensor"
    · by_cases h1 : data.action = .str "toggle"
      · exact ⟨hub.sensors.toggle t, by simp [controlDevice, ht, h0, h1, Property.truthy]⟩
      · by_cases h2 : data.action = .str "calibrate"
        · exact ⟨hub.sensors.calibrate t data.value,
            by simp [controlDevice, ht, h0, h2, Property.truthy]⟩
        · exact ⟨hub.sensors, by simp [controlDevice, h1, h2]⟩
    · exact ⟨hub.sensors, by simp [controlDevice, h0]⟩

theorem controlDevice_acknowledged_witness :
    lookupSensor "radiation" = .undefined ∧
    controlDevice ⟨sensors, sensorData⟩ ⟨.str "sensor", "radiation", .str "toggle", .undefined⟩
        "t" =
      .ok (⟨sensors, sensorData⟩, ⟨"radiation", "command_executed", "t"⟩) :=
  ⟨by decide,
    (controlDevice_acknowledged ⟨sensors, sensorData⟩
      ⟨.str "sensor", "radiation", .str "toggle", .undefined⟩ "t").1 (by decide)⟩

/-! ## The sound sensor's update -/

theorem targetLevel_eq_spec (hour : Nat) (u1 u2 u3 : ℚ) :
    SoundSensor.targetLevel hour u1 u2 u3 = soundTargetSpec hour u1 u2 u3 := by
  unfold SoundSensor.targetLevel soundTargetSpec
  by_cases h1 : 6 ≤ hour ∧ hour ≤ 22 <;> by_cases h2 : u2 < 1 / 10
  · have h1' : hour ≥ 6 ∧ hour ≤ 22 := h1
    simp only [h1', h1, h2, and_self, if_true]
  · have h1' : hour ≥ 6 ∧ hour ≤ 22 := h1
    simp only [h1', h1, h2, and_self, if_true, if_false]; ring
  · have h1' : ¬ (hour ≥ 6 ∧ hour ≤ 22) := h1
    simp only [h1', h1, h2, if_true, if_false]
  · have h1' : ¬ (hour ≥ 6 ∧ hour ≤ 22) := h1
    simp only [h1', h1, h2, if_false]; ring

theorem sound_readValue_of_active (s : SoundSensor) (c : Clock) (r1 r2 r3 : ℚ)
    (h : s.isActive = true) :
    (s.readValue c r1 r2 r3).2 =
      { s with
        currentLevel := max 20 (min 120
          (s.currentLevel + (soundTargetSpec c.hour r1 r2 r3 - s.currentLevel) * (3 / 10))),
        peakLevel := max (s.peakLevel * (99 / 100)) (max 20 (min 120
          (s.currentLevel + (soundTargetSpec c.hour r1 r2 r3 - s.currentLevel) * (3 / 10)))),
        averageLevel := s.averageLevel * (9 / 10) + (max 20 (min 120
          (s.currentLevel + (soundTargetSpec c.hour r1 r2 r3 - s.currentLevel) * (3 / 10))))
          * (1 / 10) } := by
  simp only [SoundSensor.readValue, h, targetLevel_eq_spec, SoundSensor.minLevel,
    SoundSensor.maxLevel]
  rfl

/-- C21. For the active sound sensor, every prior level `c`, peak `p` and average `a`,
and every hour and draws, `readValue` sets the level to
`c' = clamp(c + (t - c) * 0.3, 20, 120)`, then the peak to `max(p * 0.99, c')` and the
average to `a * 0.9 + c' * 0.1`, where `t` is the target level as the specification
words it; the calibration offset, the sensitivity and the active flag are unchanged. -/
theorem sound_readValue_update (s : SoundSensor) (c : Clock) (u1 u2 u3 : ℚ)
    (h : s.isActive = true) :
    (s.readValue c u1 u2 u3).2.currentLevel =
      clamp (s.currentLevel + (soundTargetSpec c.hour u1 u2 u3 - s.currentLevel) * (3 / 10))
        20 120 ∧
    (s.readValue c u1 u2 u3).2.peakLevel =
      max (s.peakLevel * (99 / 100)) (s.readValue c u1 u2 u3).2.currentLevel ∧
    (s.readValue c u1 u2 u3).2.averageLevel =
      s.averageLevel * (9 / 10) + (s.readValue c u1 u2 u3).2.currentLevel * (1 / 10) ∧
    (s.readValue c u1 u2 u3).2.calibrationOffset = s.calibrationOffset ∧
    (s.readValue c u1 u2 u3).2.sensitivity = s.sensitivity ∧
    (s.readValue c u1 u2 u3).2.isActive = s.isActive := by
  rw [sound_readValue_of_active s c u1 u2 u3 h]
  exact ⟨rfl, rfl, rfl, rfl, rfl, rfl⟩

theorem sound_readValue_update_witness :
    SoundSensor.default.isActive = true ∧
    (SoundSensor.default.readValue ⟨"", 0, 12⟩ (1 / 2) (1 / 2) 0).2.currentLevel =
      clamp (SoundSensor.default.currentLevel +
        (soundTargetSpec 12 (1 / 2) (1 / 2) 0 - SoundSensor.default.currentLevel) * (3 / 10))
        20 120 :=
  ⟨rfl, (sound_readValue_update SoundSensor.default ⟨"", 0, 12⟩ (1 / 2) (1 / 2) 0 rfl).1⟩

/-- C25. For the sound sensor, replacing the calibration offset of any state by any
other value changes neither the reading `readValue` returns, for the same clock and
draws, nor the current level, peak and average it produces: the new state differs in
the offset only. -/
theorem sound_offset_does_not_influence (s : SoundSensor) (offset : ℚ) (c : Clock)
    (r1 r2 r3 : ℚ) :
    (SoundSensor.readValue { s with calibrationOffset := offset } c r1 r2 r3).1 =
      (s.readValue c r1 r2 r3).1 ∧
    (SoundSensor.readValue { s with calibrationOffset := offset } c r1 r2 r3).2 =
      { (s.readValue c r1 r2 r3).2 with calibrationOffset := offset } := by
  cases ha : s.isActive
  · simp [SoundSensor.readValue, ha]
  · simp [SoundSensor.readValue, ha]

/-! ## The classifications -/

/-- C22. For every number `aqi`, `getAQILevel(aqi)` is one of the six tiers with its
colour: Good iff `aqi ≤ 50`, Moderate iff `50 < aqi ≤ 100`, Unhealthy for Sensitive iff
`100 < aqi ≤ 150`, Unhealthy iff `150 < aqi ≤ 200`, Very Unhealthy iff
`200 < aqi ≤ 300`, Hazardous iff `aqi > 300`; and the tier index does not decrease
when `aqi` grows. -/
theorem getAQILevel_tiers (aqi other : ℚ) :
    AirQualitySensor.getAQILevel aqi ∈ aqiTiers ∧
    (AirQualitySensor.getAQILevel aqi = ⟨"Good", "#00E400"⟩ ↔ aqi ≤ 50) ∧
    (AirQualitySensor.getAQILevel aqi = ⟨"Moderate", "#FFFF00"⟩ ↔ 50 < aqi ∧ aqi ≤ 100) ∧
    (AirQualitySensor.getAQILevel aqi = ⟨"Unhealthy for Sensitive", "#FF7E00"⟩ ↔
      100 < aqi ∧ aqi ≤ 150) ∧
    (AirQualitySensor.getAQILevel aqi = ⟨"Unhealthy", "#FF0000"⟩ ↔ 150 < aqi ∧ aqi ≤ 200) ∧
    (AirQualitySensor.getAQILevel aqi = ⟨"Very Unhealthy", "#8F3F97"⟩ ↔
      200 < aqi ∧ aqi ≤ 300) ∧
    (AirQualitySensor.getAQILevel aqi = ⟨"Hazardous", "#7E0023"⟩ ↔ 300 < aqi) ∧
    (aqi ≤ other →
      tierIndex aqiTiers (AirQualitySensor.getAQILevel aqi) ≤
        tierIndex aqiTiers (AirQualitySensor.getAQILevel other)) := by
  refine ⟨?_, ?_, ?_, ?_, ?_, ?_, ?_, ?_⟩
  · unfold AirQualitySensor.getAQILevel
    split_ifs <;> decide
  all_goals
    unfold AirQualitySensor.getAQILevel
    split_ifs <;> simp [tierIndex, aqiTiers, List.indexOf_cons] <;> (try constructor) <;>
      (try intros) <;> linarith

/-- C23. For every number `db`, `getNoiseLevel(db)` is one of the six tiers with its
colour: Very Quiet iff `db < 30`, Quiet iff `30 ≤ db < 40`, Moderate iff `40 ≤ db < 55`,
Loud iff `55 ≤ db < 70`, Very Loud iff `70 ≤ db < 85`, Harmful iff `db ≥ 85`; and the
`level` of every active sound reading is `getNoiseLevel` of the level the sensor holds
after the update, not rounded. -/
theorem getNoiseLevel_tiers (db : ℚ) (s : SoundSensor) (c : Clock) (r1 r2 r3 : ℚ) :
    SoundSensor.getNoiseLevel db ∈ noiseTiers ∧
    (SoundSensor.getNoiseLevel db = ⟨"Very Quiet", "#4CAF50"⟩ ↔ db < 30) ∧
    (SoundSensor.getNoiseLevel db = ⟨"Quiet", "#8BC34A"⟩ ↔ 30 ≤ db ∧ db < 40) ∧
    (SoundSensor.getNoiseLevel db = ⟨"Moderate", "#FFEB3B"⟩ ↔ 40 ≤ db ∧ db < 55) ∧
    (SoundSensor.getNoiseLevel db = ⟨"Loud", "#FF9800"⟩ ↔ 55 ≤ db ∧ db < 70) ∧
    (SoundSensor.getNoiseLevel db = ⟨"Very Loud", "#FF5722"⟩ ↔ 70 ≤ db ∧ db < 85) ∧
    (SoundSensor.getNoiseLevel db = ⟨"Harmful", "#F44336"⟩ ↔ 85 ≤ db) ∧
    (s.isActive = true →
      (s.readValue c r1 r2 r3).1.level =
        some (SoundSensor.getNoiseLevel (s.readValue c r1 r2 r3).2.currentLevel)) := by
  refine ⟨?_, ?_, ?_, ?_, ?_, ?_, ?_, ?_⟩
  · unfold SoundSensor.getNoiseLevel
    split_ifs <;> decide
  · unfold SoundSensor.getNoiseLevel
    split_ifs <;> simp <;> linarith
  · unfold SoundSensor.getNoiseLevel
    split_ifs <;> simp <;> (try constructor) <;> (try intros) <;> linarith
  · unfold SoundSensor.getNoiseLevel
    split_ifs <;> simp <;> (try constructor) <;> (try intros) <;> linarith
  · unfold SoundSensor.getNoiseLevel
    split_ifs <;> simp <;> (try constructor) <;> (try intros) <;> linarith
  · unfold SoundSensor.getNoiseLevel
    split_ifs <;> simp <;> (try constructor) <;> (try intros) <;> linarith
  · unfold SoundSensor.getNoiseLevel
    split_ifs <;> simp <;> linarith
  · intro h
    simp [SoundSensor.readValue, h, Reading.plain]

theorem getNoiseLevel_tiers_witness :
    SoundSensor.default.isActive = true ∧
    (SoundSensor.default.readValue ⟨"", 0, 12⟩ (1 / 2) (1 / 2) 0).1.level =
      some (SoundSensor.getNoiseLevel
        (SoundSensor.default.readValue ⟨"", 0, 12⟩ (1 / 2) (1 / 2) 0).2.currentLevel) :=
  ⟨rfl, (getNoiseLevel_tiers 0 SoundSensor.default ⟨"", 0, 12⟩ (1 / 2) (1 / 2) 0).2.2.2.2.2.2.2
    rfl⟩

theorem getAQILevel_tiers_witness :
    (40 : ℚ) ≤ 120 ∧
    tierIndex aqiTiers (AirQualitySensor.getAQILevel 40) ≤
      tierIndex aqiTiers (AirQualitySensor.getAQILevel 120) :=
  ⟨by norm_num, (getAQILevel_tiers 40 120).2.2.2.2.2.2.2 (by norm_num)⟩

/-! ## The motion sensor's update -/

theorem motion_readValue_of_active (s : MotionSensor) (c : Clock) (r : ℚ)
    (h : s.isActive = true) :
    (s.readValue c r).2 =
      { s with
        motionStartTime :=
          if decide (r < s.sensitivity) && !s.lastMotion then some c.now
          else s.motionStartTime,
        lastMotion := decide (r < s.sensitivity) } := by
  simp only [MotionSensor.readValue, h]
  rfl

/-- C24. For the active motion sensor, every prior state, every draw `r` and every
clock instant `t`: motion is detected iff `r < sensitivity`; the reading has value 1 and
status `detected` when detected, else value 0 and status `clear`; `motionStartTime`
becomes `t` when motion is detected and `lastMotion` was false, and is otherwise
unchanged; `lastMotion` becomes the detection result; the reported duration is the time
elapsed since `motionStartTime`, or 0 when it is still `null`, which on a sensor read
from its constructor state is the case exactly when no draw so far detected motion. -/
theorem motion_readValue_update (s : MotionSensor) (c : Clock) (r : ℚ)
    (sensitivity : ℚ) (inputs : List (Clock × ℚ)) (h : s.isActive = true) :
    ((s.readValue c r).1.value = some (if r < s.sensitivity then 1 else 0)) ∧
    ((s.readValue c r).1.status = if r < s.sensitivity then "detected" else "clear") ∧
    ((s.readValue c r).2.motionStartTime =
      if r < s.sensitivity ∧ s.lastMotion = false then some c.now else s.motionStartTime) ∧
    ((s.readValue c r).2.lastMotion = decide (r < s.sensitivity)) ∧
    ((s.readValue c r).1.duration =
      some (match (s.readValue c r).2.motionStartTime with
            | some start => c.now - start
            | none => 0)) ∧
    ((s.readValue c r).2.sensitivity = s.sensitivity) ∧
    ((s.readValue c r).2.isActive = s.isActive) ∧
    ((readAll (fun s i => MotionSensor.readValue s i.1 i.2) (MotionSensor.create sensitivity)
        inputs).motionStartTime = none ↔ ∀ i ∈ inputs, ¬ i.2 < sensitivity) := by
  refine ⟨?_, ?_, ?_, ?_, ?_, ?_, ?_, ?_⟩
  · by_cases hd : r < s.sensitivity <;> simp [MotionSensor.readValue, h, hd, Reading.plain]
  · by_cases hd : r < s.sensitivity <;> simp [MotionSensor.readValue, h, hd, Reading.plain]
  · rw [motion_readValue_of_active s c r h]
    by_cases hd : r < s.sensitivity <;> cases hl : s.lastMotion <;> simp [hd, hl]
  · rw [motion_readValue_of_active s c r h]
  · rw [motion_readValue_of_active s c r h]
    simp [MotionSensor.readValue, h, Reading.plain]
  · rw [motion_readValue_of_active s c r h]
  · rw [motion_readValue_of_active s c r h]
  · have key : ∀ (l : List (Clock × ℚ)) (m : MotionSensor), m.isActive = true →
        (m.motionStartTime = none → m.lastMotion = false) →
        ((readAll (fun s i => MotionSensor.readValue s i.1 i.2) m l).motionStartTime = none ↔
          m.motionStartTime = none ∧ ∀ i ∈ l, ¬ i.2 < m.sensitivity) := by
      intro l
      induction l with
      | nil => intro m _ _; simp [readAll]
      | cons i rest ih =>
        intro m ha hinv
        have hstep := motion_readValue_of_active m i.1 i.2 ha
        have hinv' : (MotionSensor.readValue m i.1 i.2).2.motionStartTime = none →
            (MotionSensor.readValue m i.1 i.2).2.lastMotion = false := by
          rw [hstep]
          by_cases hd : i.2 < m.sensitivity
          · cases hl : m.lastMotion
            · simp [hd, hl]
            · intro h0
              simp only [hd, hl, decide_True, Bool.not_true, Bool.and_false] at h0
              rw [hinv (by simpa using h0)] at hl
              cases hl
          · simp [hd]
        simp only [readAll]
        rw [ih (MotionSensor.readValue m i.1 i.2).2 (by rw [hstep]; exact ha) hinv', hstep]
        by_cases hd : i.2 < m.sensitivity
        · cases hl : m.lastMotion
          · simp [hd, hl]
          · have hs : m.motionStartTime ≠ none := fun h0 => by
              rw [hinv h0] at hl; cases hl
            simp [hd, hl, hs]
        · simp only [hd, decide_False, Bool.false_and, if_false, List.mem_cons,
            forall_eq_or_imp, not_false_eq_true, true_and]
          simp
    have := key inputs (MotionSensor.create sensitivity) rfl (fun _ => rfl)
    simpa [MotionSensor.create] using this

theorem motion_readValue_update_witness :
    MotionSensor.default.isActive = true ∧
    (MotionSensor.default.readValue ⟨"", 5000, 12⟩ (1 / 20)).2.motionStartTime =
      (if (1 / 20 : ℚ) < MotionSensor.default.sensitivity ∧
          MotionSensor.default.lastMotion = false
        then some 5000 else MotionSensor.default.motionStartTime) :=
  ⟨rfl, (motion_readValue_update MotionSensor.default ⟨"", 5000, 12⟩ (1 / 20) 0 [] rfl).2.2.1⟩

/-! ## The band the simulated sound level stays in -/

theorem targetLevel_band (hour : Nat) (r1 r2 r3 : ℚ)
    (h1 : 0 ≤ r1 ∧ r1 < 1) (h3 : 0 ≤ r3 ∧ r3 < 1) :
    35 ≤ SoundSensor.targetLevel hour r1 r2 r3 ∧ SoundSensor.targetLevel hour r1 r2 r3 < 85 := by
  unfold SoundSensor.targetLevel
  obtain ⟨h1a, h1b⟩ := h1
  obtain ⟨h3a, h3b⟩ := h3
  simp only
  split_ifs <;> constructor <;> nlinarith

theorem sound_call_keeps_band (s : SoundSensor) (call : SoundCall)
    (hs : 35 ≤ s.currentLevel ∧ s.currentLevel < 85) (hc : call.drawsInUnit) :
    (35 ≤ (s.call call).2.currentLevel ∧ (s.call call).2.currentLevel < 85) ∧
    ∀ rd, (s.call call).1 = some rd → ∀ l, rd.level = some l →
      l.level ≠ "Very Quiet" ∧ l.level ≠ "Harmful" := by
  cases call with
  | toggle => exact ⟨hs, fun rd h => by simp [SoundSensor.call] at h⟩
  | calibrate v =>
    refine ⟨?_, fun rd h => by simp [SoundSensor.call] at h⟩
    cases v with
    | num q =>
      simp only [SoundSensor.call]
      rw [sound_calibrate_num]
      split <;> exact hs
    | _ => exact hs
  | readValue c r1 r2 r3 =>
    obtain ⟨h1, _, h3⟩ := hc
    obtain ⟨t1, t2⟩ := targetLevel_band c.hour r1 r2 r3 h1 h3
    cases ha : s.isActive
    · simp only [SoundSensor.call, sound_readValue_inactive s c r1 r2 r3 ha]
      refine ⟨hs, ?_⟩
      intro rd hrd l hl
      simp only [Option.some.injEq] at hrd
      rw [← hrd] at hl
      simp [Reading.plain] at hl
    · have hx1 : 35 ≤ s.currentLevel +
          (SoundSensor.targetLevel c.hour r1 r2 r3 - s.currentLevel) * (3 / 10) := by
        linarith [hs.1]
      have hx2 : s.currentLevel +
          (SoundSensor.targetLevel c.hour r1 r2 r3 - s.currentLevel) * (3 / 10) < 85 := by
        linarith [hs.2]
      have hclamp : max SoundSensor.minLevel (min SoundSensor.maxLevel (s.currentLevel +
          (SoundSensor.targetLevel c.hour r1 r2 r3 - s.currentLevel) * (3 / 10))) =
          s.currentLevel +
            (SoundSensor.targetLevel c.hour r1 r2 r3 - s.currentLevel) * (3 / 10) := by
        unfold SoundSensor.minLevel SoundSensor.maxLevel
        rw [min_eq_right (by linarith), max_eq_right (by linarith)]
      simp only [SoundSensor.call, SoundSensor.readValue, ha, hclamp]
      refine ⟨⟨hx1, hx2⟩, ?_⟩
      intro rd hrd l hl
      simp only [Bool.not_true, Bool.false_eq_true, if_false, Option.some.injEq] at hrd
      rw [← hrd] at hl
      simp only [Reading.plain, Option.some.injEq] at hl
      rw [← hl]
      unfold SoundSensor.getNoiseLevel
      split_ifs <;> first | (constructor <;> decide) | (exfalso; linarith)

theorem sound_run_keeps_band (calls : List SoundCall) :
    ∀ s : SoundSensor, (35 ≤ s.currentLevel ∧ s.currentLevel < 85) →
      (∀ call ∈ calls, call.drawsInUnit) →
      (35 ≤ (s.run calls).2.currentLevel ∧ (s.run calls).2.currentLevel < 85) ∧
      ∀ rd ∈ (s.run calls).1, ∀ l, rd.level = some l →
        l.level ≠ "Very Quiet" ∧ l.level ≠ "Harmful" := by
  induction calls with
  | nil => intro s hs _; exact ⟨hs, fun rd h => by simp [SoundSensor.run] at h⟩
  | cons call rest ih =>
    intro s hs hc
    obtain ⟨h1, h2⟩ := sound_call_keeps_band s call hs (hc call (List.mem_cons_self _ _))
    obtain ⟨h3, h4⟩ := ih (s.call call).2 h1 (fun x hx => hc x (List.mem_cons_of_mem _ hx))
    refine ⟨h3, ?_⟩
    intro rd hrd
    simp only [SoundSensor.run] at hrd
    cases hstep : (s.call call).1 with
    | none =>
      rw [hstep] at hrd
      exact h4 rd hrd
    | some reading =>
      rw [hstep] at hrd
      rcases List.mem_cons.mp hrd with h | h
      · rw [h]; exact h2 reading hstep
      · exact h4 rd h

/-- C26. From the initial sound sensor (level 35), after any finite sequence of
`readValue`, `toggle` and `calibrate` calls whose draws lie in [0, 1), at any hours, the
current level `c` satisfies `35 ≤ c < 85`; hence in a further `readValue` the clamp to
[20, 120] returns the walked value as it is, and no reading of the sequence is
classified `Very Quiet` or `Harmful`. -/
theorem sound_level_band (calls : List SoundCall) (h : ∀ call ∈ calls, call.drawsInUnit) :
    35 ≤ (SoundSensor.default.run calls).2.currentLevel ∧
    (SoundSensor.default.run calls).2.currentLevel < 85 ∧
    (∀ (c : Clock) (r1 r2 r3 : ℚ), (SoundCall.readValue c r1 r2 r3).drawsInUnit →
      max SoundSensor.minLevel (min SoundSensor.maxLevel
        ((SoundSensor.default.run calls).2.currentLevel +
          (SoundSensor.targetLevel c.hour r1 r2 r3 -
            (SoundSensor.default.run calls).2.currentLevel) * (3 / 10))) =
        (SoundSensor.default.run calls).2.currentLevel +
          (SoundSensor.targetLevel c.hour r1 r2 r3 -
            (SoundSensor.default.run calls).2.currentLevel) * (3 / 10)) ∧
    (∀ rd ∈ (SoundSensor.default.run calls).1, ∀ l, rd.level = some l →
      l.level ≠ "Very Quiet" ∧ l.level ≠ "Harmful") := by
  have h0 : 35 ≤ SoundSensor.default.currentLevel ∧ SoundSensor.default.currentLevel < 85 := by
    norm_num [SoundSensor.default]
  obtain ⟨⟨h1, h2⟩, h3⟩ := sound_run_keeps_band calls SoundSensor.default h0 h
  refine ⟨h1, h2, ?_, h3⟩
  intro c r1 r2 r3 hd
  obtain ⟨d1, _, d3⟩ := hd
  obtain ⟨t1, t2⟩ := targetLevel_band c.hour r1 r2 r3 d1 d3
  unfold SoundSensor.minLevel SoundSensor.maxLevel
  rw [min_eq_right (by linarith), max_eq_right (by linarith)]

theorem sound_level_band_witness :
    (∀ call ∈ [SoundCall.readValue ⟨"", 0, 12⟩ (1 / 2) (1 / 20) (1 / 2), SoundCall.toggle,
        SoundCall.calibrate (.num 50)], call.drawsInUnit) ∧
    35 ≤ (SoundSensor.default.run
      [SoundCall.readValue ⟨"", 0, 12⟩ (1 / 2) (1 / 20) (1 / 2), SoundCall.toggle,
        SoundCall.calibrate (.num 50)]).2.currentLevel :=
  ⟨by
    intro call hc
    simp only [List.mem_cons, List.mem_singleton, List.not_mem_nil, or_false] at hc
    rcases hc with hc | hc | hc <;> rw [hc] <;> norm_num [SoundCall.drawsInUnit],
   (sound_level_band _ (by
    intro call hc
    simp only [List.mem_cons, List.mem_singleton, List.not_mem_nil, or_false] at hc
    rcases hc with hc | hc | hc <;> rw [hc] <;> norm_num [SoundCall.drawsInUnit])).1⟩

/-! ## The air-quality label and the reported number -/

theorem airquality_readValue_of_active (aqi co2 voc : ℚ) (c : Clock) (r1 r2 r3 : ℚ) :
    AirQualitySensor.readValue ⟨aqi, co2, voc, true⟩ c r1 r2 r3 =
      ({ Reading.plain (some (mathRound (max 0 (min 300 (aqi + (r1 - 1 / 2) * 10)))))
           (some AirQualitySensor.unit) c.iso AirQualitySensor.type "active" with
           level := some (AirQualitySensor.getAQILevel
             (max 0 (min 300 (aqi + (r1 - 1 / 2) * 10)))),
           co2 := some (mathRound (max 350 (min 2000 (co2 + (r2 - 1 / 2) * 20)))),
           voc := some (roundTo 1000 (max 0 (min 5 (voc + (r3 - 1 / 2) * (1 / 10))))),
           location := some "Indoor" },
       ⟨max 0 (min 300 (aqi + (r1 - 1 / 2) * 10)),
        max 350 (min 2000 (co2 + (r2 - 1 / 2) * 20)),
        max 0 (min 5 (voc + (r3 - 1 / 2) * (1 / 10))), true⟩) := rfl

theorem mathRound_le_iff (x : ℚ) (T : ℤ) (h : ¬ ((T : ℚ) < x ∧ x < T + 1 / 2)) :
    ((mathRound x : ℤ) : ℚ) ≤ T ↔ x ≤ T := by
  constructor
  · intro hr
    by_contra hx
    have hx' : (T : ℚ) < x := not_le.mp hx
    have h2 : (T : ℚ) + 1 / 2 ≤ x := by
      by_contra h3
      exact h ⟨hx', not_le.mp h3⟩
    have h4 : T + 1 ≤ mathRound x := by
      unfold mathRound
      exact Int.le_floor.mpr (by push_cast; linarith)
    have h5 : mathRound x ≤ T := by exact_mod_cast hr
    omega
  · intro hx
    exact_mod_cast mathRound_le hx

/-- C27, counterexample. The initial air-quality sensor is read six times, with first
draws 0.99 five times and then 0.58: the stored AQI becomes 50.3, and the sixth reading
reports the value 50 with the level Moderate, while `getAQILevel(50)` is Good. -/
theorem airquality_label_disagrees_with_value :
    ((readSeq (fun s i => AirQualitySensor.readValue s i.1 i.2.1 i.2.2.1 i.2.2.2)
        AirQualitySensor.default
        (List.replicate 5 (⟨"", 0, 12⟩, 99 / 100, 1 / 2, 1 / 2) ++
          [(⟨"", 0, 12⟩, 29 / 50, 1 / 2, 1 / 2)])).getLast?).map
        (fun rd => (rd.value, rd.level)) =
      some (some 50, some ⟨"Moderate", "#FFFF00"⟩) ∧
    AirQualitySensor.getAQILevel 50 = ⟨"Good", "#00E400"⟩ := by
  constructor
  · simp only [AirQualitySensor.default, List.replicate, List.cons_append, List.nil_append,
      readSeq, airquality_readValue_of_active, List.getLast?_cons_cons]
    norm_num [max_def, min_def, Reading.plain, AirQualitySensor.getAQILevel]
    rw [mathRound_eq (x := 503 / 10) (n := 50) (by norm_num) (by norm_num)]
    norm_num
  · norm_num [AirQualitySensor.getAQILevel]

/-- C27, amended. For every active air-quality reading, the level field is
`getAQILevel` of the stored AQI, and the reported value is that AQI rounded to the
nearest integer; the level equals `getAQILevel` of the reported value whenever the
stored AQI does not lie strictly between a threshold `T` of 50, 100, 150, 200, 300 and
`T + 0.5`. -/
theorem airquality_level_of_stored_value (s : AirQualitySensor) (c : Clock)
    (r1 r2 r3 : ℚ) (h : s.isActive = true) :
    (s.readValue c r1 r2 r3).1.level =
      some (AirQualitySensor.getAQILevel (s.readValue c r1 r2 r3).2.currentAQI) ∧
    (s.readValue c r1 r2 r3).1.value =
      some ((mathRound (s.readValue c r1 r2 r3).2.currentAQI : ℤ) : ℚ) ∧
    ((∀ T ∈ ([50, 100, 150, 200, 300] : List ℤ),
        ¬ ((T : ℚ) < (s.readValue c r1 r2 r3).2.currentAQI ∧
          (s.readValue c r1 r2 r3).2.currentAQI < T + 1 / 2)) →
      (s.readValue c r1 r2 r3).1.level =
        some (AirQualitySensor.getAQILevel
          ((mathRound (s.readValue c r1 r2 r3).2.currentAQI : ℤ) : ℚ))) := by
  obtain ⟨aqi, co2, voc, a⟩ := s
  simp only at h
  subst h
  rw [airquality_readValue_of_active]
  refine ⟨rfl, rfl, ?_⟩
  intro hgap
  simp only [Reading.plain, Option.some.injEq]
  have g50 := mathRound_le_iff _ 50 (hgap 50 (by simp))
  have g100 := mathRound_le_iff _ 100 (hgap 100 (by simp))
  have g150 := mathRound_le_iff _ 150 (hgap 150 (by simp))
  have g200 := mathRound_le_iff _ 200 (hgap 200 (by simp))
  have g300 := mathRound_le_iff _ 300 (hgap 300 (by simp))
  push_cast at g50 g100 g150 g200 g300
  unfold AirQualitySensor.getAQILevel
  simp only [g50, g100, g150, g200, g300]

theorem airquality_level_of_stored_value_witness :
    AirQualitySensor.default.isActive = true ∧
    (AirQualitySensor.default.readValue ⟨"", 0, 12⟩ (1 / 2) (1 / 2) (1 / 2)).1.level =
      some (AirQualitySensor.getAQILevel
        (AirQualitySensor.default.readValue ⟨"", 0, 12⟩ (1 / 2) (1 / 2) (1 / 2)).2.currentAQI) :=
  ⟨rfl,
    (airquality_level_of_stored_value AirQualitySensor.default ⟨"", 0, 12⟩ (1 / 2) (1 / 2)
      (1 / 2) rfl).1⟩

end IoTHub
